import Mathlib

set_option maxRecDepth 200000

/-!
Shallow embedding of `tools/csv2binary_flash.py` (CSV → binary flash database
converter).  Python strings are modelled as Lean `String` (a list of unicode
scalar values, matching Python code points); CSV rows (dicts produced by
`csv.DictReader`) are association lists from column name to cell string;
`bytes` values are `List ℕ` with entries < 256.  Python floats are modelled
exactly: `float()` parses the full CPython string grammar (sign, Unicode
decimal digits, one point, underscores between digits, exponent, `inf` /
`infinity` / `nan`, surrounding whitespace) and the resulting IEEE-754
binary64 value is represented as the exact rational it denotes, produced by
`roundPos` (round to nearest, ties to even, with subnormals, and overflow to
infinity) — likewise each float multiplication re-rounds its exact product.
Fallible operations return `Option`: `struct.pack` raising `struct.error`
on an out-of-range field, and the abort paths where `int()` raises an
`OverflowError` or `ValueError` that no handler catches.
-/

/-- Code points Python `str.isspace` treats as whitespace (the set `str.strip`
strips, used by the blank-cell guard in `safe_float`/`safe_int`). -/
def PY_WS : List ℕ :=
  [9, 10, 11, 12, 13, 28, 29, 30, 31, 32, 133, 160, 5760, 8192, 8193, 8194,
    8195, 8196, 8197, 8198, 8199, 8200, 8201, 8202, 8232, 8233, 8239, 8287,
    12288]

/-- Code points `float()` itself skips around a numeral (Python maps Unicode
spaces to ASCII space before parsing; the C parser then skips ASCII
whitespace — the four separator controls 0x1c-0x1f are stripped by
`str.strip` but rejected by `float()`). -/
def FLOAT_WS : List ℕ :=
  [9, 10, 11, 12, 13, 32, 133, 160, 5760, 8192, 8193, 8194, 8195, 8196,
    8197, 8198, 8199, 8200, 8201, 8202, 8232, 8233, 8239, 8287, 12288]

/-- Membership test for `str.isspace` whitespace. -/
def isPyWs (c : Char) : Bool :=
  PY_WS.contains c.toNat

/-- Membership test for the whitespace `float()` accepts around a numeral. -/
def isFloatWs (c : Char) : Bool :=
  FLOAT_WS.contains c.toNat

/-- Strip a character class from both ends of a character list. -/
def stripBy (p : Char → Bool) (l : List Char) : List Char :=
  ((l.dropWhile p).reverse.dropWhile p).reverse

/-- Model of Python `str.strip()` on a character list. -/
def pyStripL (l : List Char) : List Char :=
  stripBy isPyWs l

/-- Model of Python `str.strip()`. -/
def pyStrip (s : String) : String :=
  ⟨pyStripL s.data⟩

/-- Whitespace stripping `float()` performs around the numeral. -/
def floatStripL (l : List Char) : List Char :=
  stripBy isFloatWs l

/-- ASCII uppercase of one character, as done by Python `str.upper()`
on the ASCII inputs appearing in the tables of the converter. -/
def upperChar (c : Char) : Char :=
  if 97 ≤ c.toNat ∧ c.toNat ≤ 122 then Char.ofNat (c.toNat - 32) else c

/-- Model of Python `str.upper()` (ASCII inputs). -/
def pyUpper (s : String) : String :=
  ⟨s.data.map upperChar⟩

/-- ASCII lowercase of one character, as done by Python `str.lower()` and by
the ASCII case-insensitive keyword comparison inside `float()`. -/
def lowerChar (c : Char) : Char :=
  if 65 ≤ c.toNat ∧ c.toNat ≤ 90 then Char.ofNat (c.toNat + 32) else c

/-- Model of Python `str.lower()` (ASCII inputs). -/
def pyLower (s : String) : String :=
  ⟨s.data.map lowerChar⟩

/-- Model of Python string slicing `s[:n]` for `n ≥ 0` (slices by code point). -/
def pyTake (s : String) (n : ℕ) : String :=
  ⟨s.data.take n⟩

/-- Model of Python `sep in s` for a one-character separator. -/
def pyContains (s : String) (c : Char) : Bool :=
  s.data.contains c

/-- Model of Python `str.split(sep)` for a one-character separator:
splits at every occurrence, keeping empty pieces, and yields `[""]` on `""`. -/
def pySplitL (sep : Char) : List Char → List (List Char)
  | [] => [[]]
  | c :: rest =>
    match pySplitL sep rest with
    | [] => [[]]
    | p :: ps => if c = sep then [] :: p :: ps else (c :: p) :: ps

/-- Model of Python `str.split(sep)` for a one-character separator. -/
def pySplit (s : String) (sep : Char) : List String :=
  (pySplitL sep s.data).map fun l => ⟨l⟩

/-- First code point of each Unicode `Nd` (decimal digit) run; every run is
a full `start .. start+9` block valued 0-9, and Python's `float()` maps each
such digit to its ASCII value before parsing. -/
def ND_STARTS : List ℕ :=
  [48, 1632, 1776, 1984, 2406, 2534, 2662, 2790, 2918, 3046, 3174, 3302,
    3430, 3558, 3664, 3792, 3872, 4160, 4240, 6112, 6160, 6470, 6608, 6784,
    6800, 6992, 7088, 7232, 7248, 42528, 43216, 43264, 43472, 43504, 43600,
    44016, 65296, 66720, 68912, 69734, 69872, 69942, 70096, 70384, 70736,
    70864, 71248, 71360, 71472, 71904, 72016, 72784, 73040, 73120, 92768,
    92864, 93008, 120782, 120792, 120802, 120812, 120822, 123200, 123632,
    125264, 130032]

/-- Decimal value of a code point under Unicode `Nd`, or `none`. -/
def ndLookup (n : ℕ) : Option ℕ :=
  match ND_STARTS.find? fun s => s ≤ n && n ≤ s + 9 with
  | some s => some (n - s)
  | none => none

/-- Decimal value of a digit character as Python `float()` sees it. -/
def pyDigit? (c : Char) : Option ℕ :=
  ndLookup c.toNat

/-- A Python `float` value: a finite IEEE-754 binary64 (held as the exact
rational it denotes), an infinity, or NaN. -/
inductive PyFloat where
  | finite : ℚ → PyFloat
  | inf : PyFloat
  | negInf : PyFloat
  | nan : PyFloat
deriving DecidableEq

/-- Negation of a Python float (`float("-nan")` is still NaN). -/
def PyFloat.negate : PyFloat → PyFloat
  | .finite q => .finite (-q)
  | .inf => .negInf
  | .negInf => .inf
  | .nan => .nan

/-- Consume a maximal run of digits with single underscores between digits
(PEP 515, as `float()` accepts), extending the accumulator; returns the
accumulated value, the number of digits consumed in this run, and the rest.
An underscore not framed by digits is left unconsumed, which makes the
enclosing parse fail exactly as in Python. -/
def digitsRun : ℕ → ℕ → List Char → ℕ × ℕ × List Char
  | acc, nd, [] => (acc, nd, [])
  | acc, nd, [c] =>
    match pyDigit? c with
    | some d => (10 * acc + d, nd + 1, [])
    | none => (acc, nd, [c])
  | acc, nd, c :: c2 :: rest =>
    match pyDigit? c with
    | some d => digitsRun (10 * acc + d) (nd + 1) (c2 :: rest)
    | none =>
      match pyDigit? c2 with
      | some d2 =>
        if c = '_' ∧ 0 < nd then digitsRun (10 * acc + d2) (nd + 1) rest
        else (acc, nd, c :: c2 :: rest)
      | none => (acc, nd, c :: c2 :: rest)

/-- Continuation of the mantissa parse after the integer-part digit run
(value `ipv`, digit count `ipn`, rest `r1`): an optional point and fraction
run, requiring at least one digit overall. -/
def parseMantissaRest (ipv ipn : ℕ) (r1 : List Char) :
    Option (ℕ × ℕ × List Char) :=
  match r1 with
  | '.' :: r2 =>
    match digitsRun ipv 0 r2 with
    | (mv, fn, r3) => if ipn + fn = 0 then none else some (mv, fn, r3)
  | _ => if ipn = 0 then none else some (ipv, 0, r1)

/-- Mantissa of a `float()` numeral: digits with at most one point and at
least one digit; yields the digit string's integer value, the number of
fraction digits, and the unconsumed rest of the input. -/
def parseMantissa (t : List Char) : Option (ℕ × ℕ × List Char) :=
  parseMantissaRest (digitsRun 0 0 t).1 (digitsRun 0 0 t).2.1
    (digitsRun 0 0 t).2.2

/-- Optional exponent part of a `float()` numeral (must end the string). -/
def parseExp (r : List Char) : Option ℤ :=
  match r with
  | [] => some 0
  | c :: rest =>
    if lowerChar c = 'e' then
      match rest with
      | '-' :: r2 =>
        match digitsRun 0 0 r2 with
        | (ev, en, r3) => if 0 < en ∧ r3 = [] then some (-(ev : ℤ)) else none
      | '+' :: r2 =>
        match digitsRun 0 0 r2 with
        | (ev, en, r3) => if 0 < en ∧ r3 = [] then some (ev : ℤ) else none
      | _ =>
        match digitsRun 0 0 rest with
        | (ev, en, r3) => if 0 < en ∧ r3 = [] then some (ev : ℤ) else none
    else none

/-- Fuel-driven floor of `log2` (structural, so it evaluates by kernel
reduction; fuel `n` always suffices because `2 ^ k ≤ n` forces `k ≤ n`). -/
def log2fuel : ℕ → ℕ → ℕ
  | 0, _ => 0
  | fuel + 1, n => if n ≤ 1 then 0 else 1 + log2fuel fuel (n / 2)

/-- Floor of the base-2 logarithm (0 at 0). -/
def nlog2 (n : ℕ) : ℕ :=
  log2fuel n n

/-- Fuel-driven floor of `log10`. -/
def log10fuel : ℕ → ℕ → ℕ
  | 0, _ => 0
  | fuel + 1, n => if n ≤ 9 then 0 else 1 + log10fuel fuel (n / 10)

/-- Floor of the base-10 logarithm (0 at 0). -/
def nlog10 (n : ℕ) : ℕ :=
  log10fuel n n

/-- Is `2 ^ e ≤ n / d`?  (Integer arithmetic only.) -/
def pow2le (e : ℤ) (n d : ℕ) : Bool :=
  if 0 ≤ e then 2 ^ e.toNat * d ≤ n else d ≤ 2 ^ (-e).toNat * n

/-- Round the positive rational `n / d` (`n, d ≥ 1`) to the nearest IEEE-754
binary64 value, ties to even, overflowing to `inf` and underflowing through
the subnormal range to zero — the rounding `float()` and every float
operation perform. -/
def roundPos (n d : ℕ) : PyFloat :=
  let e0 : ℤ := (nlog2 n : ℤ) - (nlog2 d : ℤ)
  let e : ℤ :=
    if pow2le (e0 + 1) n d then e0 + 1
    else if pow2le e0 n d then e0 else e0 - 1
  let k : ℤ := if -1022 ≤ e then 52 - e else 1074
  let N := if 0 ≤ k then n * 2 ^ k.toNat else n
  let D := if 0 ≤ k then d else d * 2 ^ (-k).toNat
  let m := N / D
  let r := N % D
  let m2 :=
    if D < 2 * r then m + 1
    else if 2 * r < D then m
    else if m % 2 = 0 then m else m + 1
  if m2 = 0 then .finite 0
  else if 0 ≤ k then .finite (mkRat (m2 : ℤ) (2 ^ k.toNat))
  else if 2 ^ 1024 ≤ m2 * 2 ^ (-k).toNat then .inf
  else .finite (mkRat ((m2 * 2 ^ (-k).toNat : ℕ) : ℤ) 1)

/-- Round any exact rational to the nearest binary64 value. -/
def roundQ (q : ℚ) : PyFloat :=
  if q.num = 0 then .finite 0
  else if 0 < q.num then roundPos q.num.toNat q.den
  else (roundPos (-q.num).toNat q.den).negate

/-- Value and rounding of a parsed decimal numeral `mant × 10^(ex - fn)`,
with magnitude caps so that astronomically large exponents go straight to
`inf` (or `0`) without computing huge powers, exactly as they round. -/
def decimalValue (mant fn : ℕ) (ex : ℤ) : PyFloat :=
  if mant = 0 then .finite 0
  else
    let dexp : ℤ := ex - fn
    if 400 ≤ dexp then .inf
    else if dexp + (nlog10 mant : ℤ) + 1 ≤ -400 then .finite 0
    else if 0 ≤ dexp then roundPos (mant * 10 ^ dexp.toNat) 1
    else roundPos mant (10 ^ (-dexp).toNat)

/-- A full `float()` numeral: mantissa then optional exponent, rounded. -/
def parseNumeral (t : List Char) : Option PyFloat :=
  match parseMantissa t with
  | none => none
  | some (mant, fn, r3) =>
    match parseExp r3 with
    | none => none
    | some ex => some (decimalValue mant fn ex)

/-- Unsigned part of `float()`'s grammar: the keywords `inf`, `infinity`,
`nan` (ASCII case-insensitive) or a decimal numeral. -/
def parseUnsignedFloat (t : List Char) : Option PyFloat :=
  if t.map lowerChar = ['i', 'n', 'f'] ∨
      t.map lowerChar = ['i', 'n', 'f', 'i', 'n', 'i', 't', 'y'] then
    some .inf
  else if t.map lowerChar = ['n', 'a', 'n'] then some .nan
  else parseNumeral t

/-- Model of Python `float()` on a string: surrounding whitespace, optional
sign, then keyword or numeral; `none` where Python raises `ValueError`. -/
def parseFloat? (l : List Char) : Option PyFloat :=
  match floatStripL l with
  | '-' :: t => (parseUnsignedFloat t).map PyFloat.negate
  | '+' :: t => parseUnsignedFloat t
  | t => parseUnsignedFloat t

/-- Truncation toward zero, the behaviour of Python `int()` on a finite
float (exact, since the rational is the double's exact value). -/
def truncQ (q : ℚ) : ℤ :=
  if 0 ≤ q then q.floor else q.ceil

/-- Source `safe_float(val, default=0.0)`.  Total: on a string, `float()`
raises only `ValueError`, which the handler catches, so this function never
propagates an exception; its result can still be an infinity or NaN. -/
def safe_float (val : String) (default : ℚ) : PyFloat :=
  if (pyStripL val.data).isEmpty then .finite default
  else
    match parseFloat? val.data with
    | some x => x
    | none => .finite default

/-- Source `safe_int(val, default=0)` = `int(float(val))` under
`except ValueError`.  `none` models the abort path: `int(±inf)` raises
`OverflowError`, which the `ValueError` handler does not catch; `int(nan)`
raises `ValueError`, which it does catch, yielding the default. -/
def safe_int (val : String) (default : ℤ) : Option ℤ :=
  if (pyStripL val.data).isEmpty then some default
  else
    match parseFloat? val.data with
    | some (.finite q) => some (truncQ q)
    | some .inf => none
    | some .negInf => none
    | some .nan => some default
    | none => some default

/-- Multiplication of a rational by a natural scale factor, used for the
`* 100` and `* 10` quantization steps.  Written with `mkRat` so that it
evaluates by reduction; `qscale_eq` identifies it with multiplication. -/
def qscale (q : ℚ) (n : ℕ) : ℚ :=
  mkRat (q.num * n) q.den

theorem qscale_eq (q : ℚ) (n : ℕ) : qscale q n = q * n := by
  rw [qscale, Rat.mkRat_eq_divInt, Rat.divInt_eq_div]
  push_cast
  rw [mul_div_right_comm, Rat.num_div_den]

/-- Float multiplication by a positive integer scale: the exact product,
rounded back to a binary64, as IEEE multiplication does. -/
def pyMulNat (x : PyFloat) (n : ℕ) : PyFloat :=
  match x with
  | .finite q => roundQ (qscale q n)
  | .inf => .inf
  | .negInf => .negInf
  | .nan => .nan

/-- Source idiom `int(x * scale)` on a float `x`: `none` models the abort —
`int()` raises an uncaught `OverflowError` on `±inf` (also when the product
overflows) and an uncaught `ValueError` on NaN; these `int()` calls sit
outside any `try` block in the converter. -/
def quantize (x : PyFloat) (n : ℕ) : Option ℤ :=
  match pyMulNat x n with
  | .finite p => some (truncQ p)
  | _ => none

/-- One CSV row as produced by `csv.DictReader`: an association list from
column name to cell text. -/
abbrev Row := List (String × String)

/-- Model of Python `dict` lookup returning `None`-or-value. -/
def Row.lookup (r : Row) (k : String) : Option String :=
  (r.find? fun p => p.1 == k).map fun p => p.2

/-- Model of Python `row.get(k, d)`: the stored value when the key is present
(even if it is the empty string), otherwise the default. -/
def Row.get (r : Row) (k d : String) : String :=
  (Row.lookup r k).getD d

/-- Source clamping idiom `min(hi, max(lo, v))`. -/
def clampI (lo hi v : ℤ) : ℤ :=
  min hi (max lo v)

example : parseFloat? "0.4".data
    = some (.finite (mkRat 3602879701896397 9007199254740992)) := by decide
example : parseFloat? "0.1".data
    = some (.finite (mkRat 3602879701896397 36028797018963968)) := by decide
example : parseFloat? "40".data = some (.finite (mkRat 40 1)) := by decide
example : parseFloat? "2.5".data = some (.finite (mkRat 5 2)) := by decide
example : parseFloat? "1e2".data = some (.finite (mkRat 100 1)) := by decide
example : parseFloat? "1E2".data = some (.finite (mkRat 100 1)) := by decide
example : parseFloat? "1_000".data = some (.finite (mkRat 1000 1)) := by decide
example : parseFloat? "1_0.2_5e1_0".data
    = some (.finite (mkRat 102500000000 1)) := by decide
example : parseFloat? "0.99999999999999999".data
    = some (.finite (mkRat 1 1)) := by decide
example : parseFloat? "9007199254740993".data
    = some (.finite (mkRat 9007199254740992 1)) := by decide
example : parseFloat? "9007199254740995".data
    = some (.finite (mkRat 9007199254740996 1)) := by decide
example : parseFloat? "123456789012345678901234567890".data
    = some (.finite (mkRat 123456789012345677877719597056 1)) := by decide
example : parseFloat? "1e309".data = some .inf := by decide
example : parseFloat? "1e400".data = some .inf := by decide
example : parseFloat? "1e-400".data = some (.finite 0) := by decide
example : parseFloat? ".5".data = some (.finite (mkRat 1 2)) := by decide
example : parseFloat? "5.".data = some (.finite (mkRat 5 1)) := by decide
example : parseFloat? ".".data = none := by decide
example : parseFloat? "5..2".data = none := by decide
example : parseFloat? "--5".data = none := by decide
example : parseFloat? "+5".data = some (.finite (mkRat 5 1)) := by decide
example : parseFloat? "-0.0".data = some (.finite 0) := by decide
example : parseFloat? "inf".data = some .inf := by decide
example : parseFloat? "iNfInItY".data = some .inf := by decide
example : parseFloat? "nan".data = some .nan := by decide
example : parseFloat? "-inf".data = some .negInf := by decide
example : parseFloat? "-nan".data = some .nan := by decide
example : parseFloat? "٤٠".data = some (.finite (mkRat 40 1)) := by decide
example : parseFloat? "４０".data = some (.finite (mkRat 40 1)) := by decide
example : parseFloat? "1__0".data = none := by decide
example : parseFloat? "_5".data = none := by decide
example : parseFloat? "5_".data = none := by decide
example : parseFloat? "1_.5".data = none := by decide
example : parseFloat? "1._5".data = none := by decide
example : parseFloat? "1e_5".data = none := by decide
example : parseFloat? "1e5_".data = none := by decide
example : parseFloat? "0e999999999".data = some (.finite 0) := by decide
example : parseFloat? "00.125".data = some (.finite (mkRat 1 8)) := by decide
example : parseFloat? " 12 ".data = some (.finite (mkRat 12 1)) := by decide
example : parseFloat? "\x1c7".data = none := by decide
example : parseFloat? "1e-320".data = some (.finite (mkRat 253
    25300281663413827294061918339864663381194581220517764794612669753428792445999418361495047962679640561898384733039601488923726092173224184608376674992592313740189678034570795170558363467761652042654970959809093133570250935428086587327262919456144944542601257064044846194041676826903812816523290938580750782913463467636686848)) := by decide

example : safe_int "inf" 0 = none := by decide
example : safe_int "1e400" 0 = none := by decide
example : safe_int "nan" 7 = some 7 := by decide
example : safe_int "abc" 7 = some 7 := by decide
example : safe_int "  " 7 = some 7 := by decide
example : safe_int "\x1c" 7 = some 7 := by decide
example : safe_int "\x1c7" 7 = some 7 := by decide
example : safe_int "3.9" 0 = some 3 := by decide
example : safe_int "-3.9" 0 = some (-3) := by decide
example : safe_int "0.99999999999999999" 0 = some 1 := by decide
example : safe_int "  500 " 0 = some 500 := by decide
example : safe_int "1e2" 0 = some 100 := by decide

example : quantize (safe_float "0.4" 0) 100 = some 40 := by decide
example : quantize (safe_float "0.3" 0) 100 = some 30 := by decide
example : quantize (safe_float "0.29" 0) 100 = some 28 := by decide
example : quantize (safe_float "0.7" 0) 100 = some 70 := by decide
example : quantize (safe_float "0.57" 0) 100 = some 56 := by decide
example : quantize (safe_float "1.15" 0) 100 = some 114 := by decide
example : quantize (safe_float "0.35" 0) 100 = some 35 := by decide
example : quantize (safe_float "0.5" 0) 10 = some 5 := by decide
example : quantize (safe_float "2.07" 0) 10 = some 20 := by decide
example : quantize (safe_float "inf" 0) 100 = none := by decide
example : quantize (safe_float "nan" 0) 100 = none := by decide
example : quantize (safe_float "" 0) 100 = some 0 := by decide
example : pySplit "40-80" '-' = ["40", "80"] := by decide
example : pyUpper "hiGh" = "HIGH" := by decide
example : clampI 0 255 500 = 255 := by decide
/-- UTF-8 encoding of one unicode scalar value (Lean `Char` excludes
surrogates, so the `errors="replace"` branch of Python `str.encode` is
unreachable). -/
def utf8Bytes (c : Char) : List ℕ :=
  let n := c.toNat
  if n < 0x80 then [n]
  else if n < 0x800 then
    [0xC0 ||| (n >>> 6), 0x80 ||| (n &&& 0x3F)]
  else if n < 0x10000 then
    [0xE0 ||| (n >>> 12), 0x80 ||| ((n >>> 6) &&& 0x3F), 0x80 ||| (n &&& 0x3F)]
  else
    [0xF0 ||| (n >>> 18), 0x80 ||| ((n >>> 12) &&& 0x3F),
      0x80 ||| ((n >>> 6) &&& 0x3F), 0x80 ||| (n &&& 0x3F)]

/-- Model of Python `s.encode("utf-8")` as a byte list. -/
def strUTF8 (s : String) : List ℕ :=
  s.data.foldr (fun c acc => utf8Bytes c ++ acc) []

/-- Source `encode_string(s, max_len)`: UTF-8 encode, truncate to
`max_len - 1` bytes, zero-pad to exactly `max_len` bytes.  (Python's slice
`[:max_len - 1]` is modelled for `max_len ≥ 1`, the only widths used.) -/
def encode_string (s : String) (max_len : ℕ) : List ℕ :=
  let encoded := (strUTF8 s).take (max_len - 1)
  encoded ++ List.replicate (max_len - encoded.length) 0

/-- One field of a `struct` format string: `B` (u8), `H` (u16 LE),
`I` (u32 LE) or `ns` (fixed `n`-byte string). -/
inductive PackFmt where
  | U8 : PackFmt
  | U16 : PackFmt
  | U32 : PackFmt
  | Str : ℕ → PackFmt
deriving DecidableEq

/-- Byte width of one format field, as `struct.calcsize` counts it for a
`<`-prefixed (packed, little-endian) format string. -/
def fmtSize : PackFmt → ℕ
  | .U8 => 1
  | .U16 => 2
  | .U32 => 4
  | .Str n => n

/-- A value handed to `struct.pack`: a Python int or a bytes object. -/
inductive PackVal where
  | int : ℤ → PackVal
  | bytes : List ℕ → PackVal
deriving DecidableEq

/-- Packing of one value into one format field.  `none` models
`struct.error`: an integer outside its field's unsigned range (or a value of
the wrong kind) makes `struct.pack` raise.  An `ns` field truncates longer
byte strings and zero-pads shorter ones, as `struct` does. -/
def packField : PackFmt → PackVal → Option (List ℕ)
  | .U8, .int v => if 0 ≤ v ∧ v < 256 then some [v.toNat] else none
  | .U16, .int v =>
    if 0 ≤ v ∧ v < 65536 then some [v.toNat % 256, v.toNat / 256] else none
  | .U32, .int v =>
    if 0 ≤ v ∧ v < 4294967296 then
      some [v.toNat % 256, v.toNat / 256 % 256, v.toNat / 65536 % 256,
        v.toNat / 16777216]
    else none
  | .Str n, .bytes b => some (b.take n ++ List.replicate (n - b.length) 0)
  | _, _ => none

/-- Model of `struct.pack` over a whole format string: packs each value into
its field and concatenates; `none` when any field raises or the argument
count does not match the format. -/
def structPack : List PackFmt → List PackVal → Option (List ℕ)
  | [], [] => some []
  | f :: fs, v :: vs => do
    let b ← packField f v
    let rest ← structPack fs vs
    return b ++ rest
  | _, _ => none

/-- Source `HEADER_FORMAT = "<IHHIHH"`. -/
def HEADER_FORMAT : List PackFmt :=
  [.U32, .U16, .U16, .U32, .U16, .U16]

/-- Source `HEADER_SIZE = struct.calcsize(HEADER_FORMAT)`. -/
def HEADER_SIZE : ℕ :=
  (HEADER_FORMAT.map fmtSize).sum

/-- Source `PLANT_RECORD_FORMAT = "<HBB24sBBBBBBBBBBBB8s"`. -/
def PLANT_RECORD_FORMAT : List PackFmt :=
  [.U16, .U8, .U8, .Str 24, .U8, .U8, .U8, .U8, .U8, .U8, .U8, .U8, .U8,
    .U8, .U8, .U8, .Str 8]

/-- Source `PLANT_RECORD_SIZE = struct.calcsize(PLANT_RECORD_FORMAT)`. -/
def PLANT_RECORD_SIZE : ℕ :=
  (PLANT_RECORD_FORMAT.map fmtSize).sum

/-- Source `SOIL_RECORD_FORMAT = "<B15sBBHBB2s"`. -/
def SOIL_RECORD_FORMAT : List PackFmt :=
  [.U8, .Str 15, .U8, .U8, .U16, .U8, .U8, .Str 2]

/-- Source `SOIL_RECORD_SIZE = struct.calcsize(SOIL_RECORD_FORMAT)`. -/
def SOIL_RECORD_SIZE : ℕ :=
  (SOIL_RECORD_FORMAT.map fmtSize).sum

/-- Source `IRRIGATION_RECORD_FORMAT = "<B15sBBBBB3s"`. -/
def IRRIGATION_RECORD_FORMAT : List PackFmt :=
  [.U8, .Str 15, .U8, .U8, .U8, .U8, .U8, .Str 3]

/-- Source `IRRIGATION_RECORD_SIZE = struct.calcsize(IRRIGATION_RECORD_FORMAT)`. -/
def IRRIGATION_RECORD_SIZE : ℕ :=
  (IRRIGATION_RECORD_FORMAT.map fmtSize).sum

/-- Source magic constant for `plants.bin`. -/
def DB_MAGIC_PLANT : ℕ := 0x504C4E54

/-- Source magic constant for `soils.bin`. -/
def DB_MAGIC_SOIL : ℕ := 0x534F494C

/-- Source magic constant for `irrigation.bin`. -/
def DB_MAGIC_IRRIGATION : ℕ := 0x49525247

/-- Source `DB_VERSION_CURRENT = 1`. -/
def DB_VERSION_CURRENT : ℕ := 1

/-- Source `CATEGORY_MAP` (keys are mixed-case, exactly as written). -/
def CATEGORY_MAP : List (String × ℤ) :=
  [("Agriculture", 0), ("Vegetables", 1), ("Fruits", 2), ("Herbs", 3),
    ("Ornamental", 4), ("Trees", 5), ("Houseplants", 6), ("Lawns", 7)]

/-- Source `TOLERANCE_MAP` (note the empty string is itself a key). -/
def TOLERANCE_MAP : List (String × ℤ) :=
  [("", 1), ("LOW", 0), ("MED", 1), ("MEDIUM", 1), ("HIGH", 2), ("VHIGH", 3)]

/-- Source `IRRIGATION_METHOD_MAP`. -/
def IRRIGATION_METHOD_MAP : List (String × ℤ) :=
  [("DRIP", 0), ("DRIP_PC", 1), ("SPRINKLER", 2), ("SURFACE", 3),
    ("FLOOD", 4), ("MICRO_SPRAY", 5), ("SUBSURFACE", 6), ("MANUAL", 7)]

/-- Model of Python `dict.get(k, d)` on one of the fixed tables. -/
def mapGet (m : List (String × ℤ)) (k : String) (d : ℤ) : ℤ :=
  ((m.find? fun p => p.1 == k).map fun p => p.2).getD d

/-- One step of the reflected CRC-32 bit loop (polynomial `0xEDB88320`). -/
def crcStep (c : ℕ) : ℕ :=
  if c % 2 = 1 then (c / 2) ^^^ 0xEDB88320 else c / 2

/-- Byte update of the zlib CRC-32 state. -/
def crcByte (c b : ℕ) : ℕ :=
  crcStep^[8] (c ^^^ b % 256)

/-- Source `calc_crc32(data)`: `zlib.crc32(data) & 0xFFFFFFFF`, modelled by
the standard reflected CRC-32 (init and final xor `0xFFFFFFFF`). -/
def calc_crc32 (data : List ℕ) : ℕ :=
  ((data.foldl crcByte 0xFFFFFFFF) ^^^ 0xFFFFFFFF) &&& 0xFFFFFFFF

example : calc_crc32 [] = 0 := by decide

set_option maxRecDepth 4000 in
example : calc_crc32 [0x31, 0x32, 0x33, 0x34, 0x35, 0x36, 0x37, 0x38, 0x39]
    = 0xCBF43926 := by decide
example : encode_string "Clay" 15
    = [67, 108, 97, 121, 0, 0, 0, 0, 0, 0, 0, 0, 0, 0, 0] := by decide
example : HEADER_SIZE = 16 ∧ PLANT_RECORD_SIZE = 48 ∧ SOIL_RECORD_SIZE = 24 ∧
    IRRIGATION_RECORD_SIZE = 24 := by decide
/-- Source plant category lookup `CATEGORY_MAP.get(s, 0)` — note the source
performs no case normalization on the category string. -/
def categoryCode (s : String) : ℤ :=
  mapGet CATEGORY_MAP s 0

/-- Source drought tolerance lookup `TOLERANCE_MAP.get(s.upper(), 1)`. -/
def toleranceCode (s : String) : ℤ :=
  mapGet TOLERANCE_MAP (pyUpper s) 1

/-- Source irrigation method lookup `IRRIGATION_METHOD_MAP.get(s.upper(), 0)`. -/
def irrigationMethodCode (s : String) : ℤ :=
  mapGet IRRIGATION_METHOD_MAP (pyUpper s) 0

/-- Source truthiness test `s.lower() in ("yes", "true", "1")`. -/
def truthyFlag (s : String) : Bool :=
  pyLower s == "yes" || pyLower s == "true" || pyLower s == "1"

/-- Source flags byte: bit0 = indoor, bit1 = toxic, bit2 = edible part given. -/
def plantFlags (row : Row) : ℕ :=
  let f1 := if truthyFlag (Row.get row "indoor_ok" "") then 0 ||| 1 else 0
  let f2 := if truthyFlag (Row.get row "toxic_flag" "") then f1 ||| 2 else f1
  if ¬(pyStripL (Row.get row "edible_part" "").data).isEmpty then f2 ||| 4
  else f2

/-- Source common-name selection
`row.get("common_name_en", row.get("common_name_ro", ""))[:23]`. -/
def plantName (row : Row) : String :=
  pyTake (Row.get row "common_name_en" (Row.get row "common_name_ro" "")) 23

/-- Source `kc_ini` field: `int(safe_float(..., "0.3") * 100)`, clamped;
`none` when the `int()` call aborts on a non-finite float. -/
def plant_kc_ini (row : Row) : Option ℤ :=
  (quantize (safe_float (Row.get row "kc_ini" "0.3") 0) 100).map (clampI 0 255)

/-- Source `kc_mid` field, clamped. -/
def plant_kc_mid (row : Row) : Option ℤ :=
  (quantize (safe_float (Row.get row "kc_mid" "1.0") 0) 100).map (clampI 0 255)

/-- Source `kc_end` field, clamped. -/
def plant_kc_end (row : Row) : Option ℤ :=
  (quantize (safe_float (Row.get row "kc_end" "0.5") 0) 100).map (clampI 0 255)

/-- Source `root_depth_max` field (`* 10`, decimetres), clamped. -/
def plant_root_depth (row : Row) : Option ℤ :=
  (quantize (safe_float (Row.get row "root_depth_max_m" "0.5") 0) 10).map
    (clampI 0 255)

/-- Source `depletion` field (`* 100`), clamped. -/
def plant_depletion (row : Row) : Option ℤ :=
  (quantize (safe_float (Row.get row "depletion_fraction_p" "0.5") 0) 100).map
    (clampI 0 255)

/-- Source `stage_ini` field, clamped. -/
def plant_stage_ini (row : Row) : Option ℤ :=
  (safe_int (Row.get row "stage_days_ini" "20") 0).map (clampI 0 255)

/-- Source `stage_dev` field, clamped. -/
def plant_stage_dev (row : Row) : Option ℤ :=
  (safe_int (Row.get row "stage_days_dev" "30") 0).map (clampI 0 255)

/-- Source `stage_mid` field, clamped. -/
def plant_stage_mid (row : Row) : Option ℤ :=
  (safe_int (Row.get row "stage_days_mid" "40") 0).map (clampI 0 255)

/-- Source `stage_end` field, clamped. -/
def plant_stage_end (row : Row) : Option ℤ :=
  (safe_int (Row.get row "stage_days_end" "20") 0).map (clampI 0 255)

/-- One plant record, packed with `PLANT_RECORD_FORMAT` from one CSV row and
the running `plant_id` counter, exactly in the source's argument order;
`none` when a field computation aborts or `struct.pack` raises. -/
def encodePlantRecord (plant_id : ℕ) (row : Row) : Option (List ℕ) := do
  let kci ← plant_kc_ini row
  let kcm ← plant_kc_mid row
  let kce ← plant_kc_end row
  let rd ← plant_root_depth row
  let dep ← plant_depletion row
  let si ← plant_stage_ini row
  let sd ← plant_stage_dev row
  let sm ← plant_stage_mid row
  let se ← plant_stage_end row
  structPack PLANT_RECORD_FORMAT
    [.int plant_id,
      .int (categoryCode (Row.get row "category" "")),
      .int 0,
      .bytes (encode_string (plantName row) 24),
      .int kci, .int kcm, .int kce, .int rd, .int dep,
      .int si, .int sd, .int sm, .int se,
      .int (plantFlags row),
      .int (toleranceCode (Row.get row "drought_tolerance" "")),
      .int (irrigationMethodCode (Row.get row "typ_irrig_method" "DRIP")),
      .bytes (encode_string "" 8)]

/-- Record-by-record loop carrying a running counter, abstracted over the
per-row encoder (the shape shared by the three converters). -/
def convertSeq (enc : ℕ → Row → Option (List ℕ)) (pid : ℕ)
    (rows : List Row) : Option (List (List ℕ)) :=
  match rows with
  | [] => some []
  | r :: rs =>
    match enc pid r, convertSeq enc (pid + 1) rs with
    | some x, some xs => some (x :: xs)
    | _, _ => none
termination_by structural rows

/-- Source `convert_plants` loop from a given value of the `plant_id`
counter: encodes rows in order, incrementing `plant_id` for each row. -/
def convertPlantsFrom (pid : ℕ) (rows : List Row) :
    Option (List (List ℕ)) :=
  convertSeq encodePlantRecord pid rows

/-- Source `convert_plants`: returns the concatenated record payload and the
record count (`plant_id` starts at 0). -/
def convert_plants (rows : List Row) : Option (List ℕ × ℕ) :=
  (convertPlantsFrom 0 rows).map fun recs => (recs.flatten, recs.length)

/-- Source soil identifier `safe_int(row.get("soil_id", "0"))` — packed into
a `B` slot with no clamping. -/
def soil_id_val (row : Row) : Option ℤ :=
  safe_int (Row.get row "soil_id" "0") 0

/-- Source `fc` field, clamped. -/
def soil_fc (row : Row) : Option ℤ :=
  (safe_int (Row.get row "fc_pctvol" "30") 0).map (clampI 0 255)

/-- Source `pwp` field, clamped. -/
def soil_pwp (row : Row) : Option ℤ :=
  (safe_int (Row.get row "pwp_pctvol" "15") 0).map (clampI 0 255)

/-- Source `awc` field, clamped to the 16-bit range. -/
def soil_awc (row : Row) : Option ℤ :=
  (safe_int (Row.get row "awc_mm_per_m" "150") 0).map (clampI 0 65535)

/-- Source `infil` field, clamped. -/
def soil_infil (row : Row) : Option ℤ :=
  (safe_int (Row.get row "infil_mm_h" "10") 0).map (clampI 0 255)

/-- Source `p_raw` field: `int(safe_float(..., "0.5") * 100)`, clamped. -/
def soil_p_raw (row : Row) : Option ℤ :=
  (quantize (safe_float (Row.get row "p_raw" "0.5") 0) 100).map (clampI 0 255)

/-- One soil record packed with `SOIL_RECORD_FORMAT`, in source order. -/
def encodeSoilRecord (row : Row) : Option (List ℕ) := do
  let sid ← soil_id_val row
  let fc ← soil_fc row
  let pwp ← soil_pwp row
  let awc ← soil_awc row
  let infil ← soil_infil row
  let praw ← soil_p_raw row
  structPack SOIL_RECORD_FORMAT
    [.int sid,
      .bytes (encode_string (pyTake (Row.get row "soil_type" "") 14) 15),
      .int fc, .int pwp, .int awc, .int infil, .int praw,
      .bytes (encode_string "" 2)]

/-- Record-by-record conversion loop shared by the soil and irrigation
converters (their loops carry no extra state). -/
def convertRows (enc : Row → Option (List ℕ)) :
    List Row → Option (List (List ℕ))
  | [] => some []
  | r :: rs =>
    match enc r, convertRows enc rs with
    | some x, some xs => some (x :: xs)
    | _, _ => none

/-- Source `convert_soils`: concatenated payload plus record count. -/
def convert_soils (rows : List Row) : Option (List ℕ × ℕ) :=
  (convertRows encodeSoilRecord rows).map fun recs => (recs.flatten, recs.length)

/-- Source range parsing for irrigation depth and application rate: a string
containing `-` is split on it and the first two pieces are parsed with
`safe_int` and averaged with integer floor division `// 2`; otherwise the
whole string is parsed as one number. -/
def parseRangeAvg (s : String) : Option ℤ :=
  if pyContains s '-' then
    match safe_int ((pySplit s '-').getD 0 "") 0,
        safe_int ((pySplit s '-').getD 1 "") 0 with
    | some a, some b => some (Int.fdiv (a + b) 2)
    | _, _ => none
  else safe_int s 0

/-- Source irrigation identifier `safe_int(row.get("method_id", "0"))` —
packed into a `B` slot with no clamping. -/
def method_id_val (row : Row) : Option ℤ :=
  safe_int (Row.get row "method_id" "0") 0

/-- Source `efficiency` field, clamped. -/
def irrig_efficiency (row : Row) : Option ℤ :=
  (safe_int (Row.get row "efficiency_pct" "80") 0).map (clampI 0 255)

/-- Source `wetting` field: `int(safe_float(..., "0.5") * 100)`, clamped. -/
def irrig_wetting (row : Row) : Option ℤ :=
  (quantize (safe_float (Row.get row "wetting_fraction" "0.5") 0) 100).map
    (clampI 0 255)

/-- Source `depth` field: range-averaged, then clamped. -/
def irrig_depth (row : Row) : Option ℤ :=
  (parseRangeAvg (Row.get row "depth_typical_mm" "30")).map (clampI 0 255)

/-- Source `rate` field: range-averaged, then clamped. -/
def irrig_rate (row : Row) : Option ℤ :=
  (parseRangeAvg (Row.get row "application_rate_mm_h" "10")).map (clampI 0 255)

/-- Source `du` field, clamped. -/
def irrig_du (row : Row) : Option ℤ :=
  (safe_int (Row.get row "distribution_uniformity_pct" "85") 0).map (clampI 0 255)

/-- One irrigation record packed with `IRRIGATION_RECORD_FORMAT`. -/
def encodeIrrigationRecord (row : Row) : Option (List ℕ) := do
  let mid ← method_id_val row
  let eff ← irrig_efficiency row
  let wet ← irrig_wetting row
  let dep ← irrig_depth row
  let rat ← irrig_rate row
  let du ← irrig_du row
  structPack IRRIGATION_RECORD_FORMAT
    [.int mid,
      .bytes (encode_string (pyTake (Row.get row "method_name" "") 14) 15),
      .int eff, .int wet, .int dep, .int rat, .int du,
      .bytes (encode_string "" 3)]

/-- Source `convert_irrigation`: concatenated payload plus record count. -/
def convert_irrigation (rows : List Row) : Option (List ℕ × ℕ) :=
  (convertRows encodeIrrigationRecord rows).map fun recs => (recs.flatten, recs.length)

/-- Source `pack_header(magic, count, crc32, record_size)`:
`struct.pack(HEADER_FORMAT, magic, DB_VERSION_CURRENT, count, crc32,
record_size, 0)`. -/
def pack_header (magic count crc32v record_size : ℕ) : Option (List ℕ) :=
  structPack HEADER_FORMAT
    [.int magic, .int DB_VERSION_CURRENT, .int count, .int crc32v,
      .int record_size, .int 0]

/-- Source `write_binary_db`: CRC over the payload, then header followed by
payload; the resulting byte string is the file's full contents. -/
def write_binary_db (magic : ℕ) (data : List ℕ) (count record_size : ℕ) :
    Option (List ℕ) :=
  (pack_header magic count (calc_crc32 data) record_size).map fun h => h ++ data

/-- Little-endian decoding of the first two bytes of a byte list (for stating
facts about stored header fields). -/
def readU16LE (l : List ℕ) : ℕ :=
  l.getD 0 0 + 256 * l.getD 1 0

/-- Little-endian decoding of the first four bytes of a byte list. -/
def readU32LE (l : List ℕ) : ℕ :=
  l.getD 0 0 + 256 * l.getD 1 0 + 65536 * l.getD 2 0 + 16777216 * l.getD 3 0

example :
    encodeSoilRecord [("soil_id", "0"), ("soil_type", "Clay"),
      ("fc_pctvol", "40"), ("pwp_pctvol", "20"), ("awc_mm_per_m", "180"),
      ("infil_mm_h", "5"), ("p_raw", "0.4")]
    = some [0, 67, 108, 97, 121, 0, 0, 0, 0, 0, 0, 0, 0, 0, 0, 0,
        40, 20, 180, 0, 5, 40, 0, 0] := by decide

example : convert_soils [[("soil_id", "500")]] = none := by decide
example : parseRangeAvg "40-80" = some 60 := by decide
example : parseRangeAvg "25" = some 25 := by decide
example : parseRangeAvg "2.5-3.5" = some 2 := by decide
theorem packField_length (f : PackFmt) (v : PackVal) (bs : List ℕ)
    (h : packField f v = some bs) : bs.length = fmtSize f := by
  cases f <;> cases v <;> simp [packField] at h <;> try simp [fmtSize]
  case U8.int w =>
    obtain ⟨-, rfl⟩ := h
    simp [fmtSize]
  case U16.int w =>
    obtain ⟨-, rfl⟩ := h
    simp [fmtSize]
  case U32.int w =>
    obtain ⟨-, rfl⟩ := h
    simp [fmtSize]
  case Str.bytes n b =>
    subst h
    simp [fmtSize]
    omega

theorem structPack_length (fmts : List PackFmt) (vals : List PackVal)
    (bs : List ℕ) (h : structPack fmts vals = some bs) :
    bs.length = (fmts.map fmtSize).sum := by
  induction fmts generalizing vals bs with
  | nil =>
    cases vals with
    | nil => simp [structPack] at h; subst h; simp
    | cons v vs => simp [structPack] at h
  | cons f fs ih =>
    cases vals with
    | nil => simp [structPack] at h
    | cons v vs =>
      simp only [structPack, Option.bind_eq_bind, bind, Option.bind] at h
      cases hb : packField f v with
      | none => rw [hb] at h; simp at h
      | some b =>
        rw [hb] at h
        cases hr : structPack fs vs with
        | none => rw [hr] at h; simp at h
        | some r =>
          rw [hr] at h
          simp at h
          subst h
          simp [packField_length f v b hb, ih vs r hr]

theorem clampU8_nonneg (v : ℤ) : 0 ≤ clampI 0 255 v := by
  unfold clampI; omega

theorem clampU8_lt (v : ℤ) : clampI 0 255 v < 256 := by
  unfold clampI; omega

theorem clampU16_nonneg (v : ℤ) : 0 ≤ clampI 0 65535 v := by
  unfold clampI; omega

theorem clampU16_lt (v : ℤ) : clampI 0 65535 v < 65536 := by
  unfold clampI; omega

theorem mapGet_bound (m : List (String × ℤ)) (k : String) (d : ℤ)
    (hd : 0 ≤ d ∧ d < 256) (hm : ∀ p ∈ m, 0 ≤ p.2 ∧ p.2 < 256) :
    0 ≤ mapGet m k d ∧ mapGet m k d < 256 := by
  unfold mapGet
  cases hf : m.find? fun p => p.1 == k with
  | none => simpa using hd
  | some p =>
    have hmem := List.mem_of_find?_eq_some hf
    simpa using hm p hmem

theorem categoryCode_bound (s : String) :
    0 ≤ categoryCode s ∧ categoryCode s < 256 :=
  mapGet_bound CATEGORY_MAP s 0 (by decide) (by decide)

theorem toleranceCode_bound (s : String) :
    0 ≤ toleranceCode s ∧ toleranceCode s < 256 :=
  mapGet_bound TOLERANCE_MAP (pyUpper s) 1 (by decide) (by decide)

theorem irrigationMethodCode_bound (s : String) :
    0 ≤ irrigationMethodCode s ∧ irrigationMethodCode s < 256 :=
  mapGet_bound IRRIGATION_METHOD_MAP (pyUpper s) 0 (by decide) (by decide)

theorem plantFlags_lt (row : Row) : plantFlags row < 256 := by
  simp only [plantFlags]
  split_ifs <;> decide

theorem packField_U8_some (v : ℤ) (h0 : 0 ≤ v) (h1 : v < 256) :
    packField .U8 (.int v) = some [v.toNat] := by
  simp [packField, h0, h1]

theorem packField_U8_none (v : ℤ) (h : ¬(0 ≤ v ∧ v < 256)) :
    packField .U8 (.int v) = none := by
  simp only [packField]
  rw [if_neg h]

theorem packField_U16_some (v : ℤ) (h0 : 0 ≤ v) (h1 : v < 65536) :
    packField .U16 (.int v) = some [v.toNat % 256, v.toNat / 256] := by
  simp [packField, h0, h1]

theorem packField_U32_some (v : ℤ) (h0 : 0 ≤ v) (h1 : v < 4294967296) :
    packField .U32 (.int v) =
      some [v.toNat % 256, v.toNat / 256 % 256, v.toNat / 65536 % 256,
        v.toNat / 16777216] := by
  simp [packField, h0, h1]

theorem packField_Str_exact (n : ℕ) (bs : List ℕ) (h : bs.length = n) :
    packField (.Str n) (.bytes bs) = some bs := by
  simp [packField, h, List.take_of_length_le (le_of_eq h)]

theorem encode_string_length (s : String) (n : ℕ) (h : 1 ≤ n) :
    (encode_string s n).length = n := by
  simp only [encode_string, List.length_append, List.length_replicate]
  have hl : ((strUTF8 s).take (n - 1)).length ≤ n - 1 := by
    simp [List.length_take]
  omega
theorem packField_U16_none (v : ℤ) (h : ¬(0 ≤ v ∧ v < 65536)) :
    packField .U16 (.int v) = none := by
  simp only [packField]
  rw [if_neg h]


theorem clamp8_of_map {o : Option ℤ} {v : ℤ}
    (h : o.map (clampI 0 255) = some v) : 0 ≤ v ∧ v < 256 := by
  cases o with
  | none => cases h
  | some w =>
    rw [Option.map_some', Option.some.injEq] at h
    subst h
    exact ⟨clampU8_nonneg w, clampU8_lt w⟩

theorem clamp16_of_map {o : Option ℤ} {v : ℤ}
    (h : o.map (clampI 0 65535) = some v) : 0 ≤ v ∧ v < 65536 := by
  cases o with
  | none => cases h
  | some w =>
    rw [Option.map_some', Option.some.injEq] at h
    subst h
    exact ⟨clampU16_nonneg w, clampU16_lt w⟩

theorem encodeSoilRecord_inv (row : Row) (rec : List ℕ)
    (h : encodeSoilRecord row = some rec) :
    ∃ sid fc pwp awc infil praw,
      soil_id_val row = some sid ∧ soil_fc row = some fc ∧
      soil_pwp row = some pwp ∧ soil_awc row = some awc ∧
      soil_infil row = some infil ∧ soil_p_raw row = some praw ∧
      0 ≤ sid ∧ sid < 256 ∧
      rec = sid.toNat ::
        (encode_string (pyTake (Row.get row "soil_type" "") 14) 15
          ++ ([fc.toNat, pwp.toNat, awc.toNat % 256, awc.toNat / 256,
            infil.toNat, praw.toNat] ++ encode_string "" 2)) := by
  have h0 := h
  simp only [encodeSoilRecord, Option.bind_eq_bind, Option.bind_eq_some] at h
  obtain ⟨sid, hsid, fc, hfc, pwp, hpwp, awc, hawc, infil, hinfil, praw,
    hpraw, hsp⟩ := h
  have hfcb : 0 ≤ fc ∧ fc < 256 := clamp8_of_map hfc
  have hpwpb : 0 ≤ pwp ∧ pwp < 256 := clamp8_of_map hpwp
  have hawcb : 0 ≤ awc ∧ awc < 65536 := clamp16_of_map hawc
  have hinfb : 0 ≤ infil ∧ infil < 256 := clamp8_of_map hinfil
  have hprawb : 0 ≤ praw ∧ praw < 256 := clamp8_of_map hpraw
  by_cases hs : 0 ≤ sid ∧ sid < 256
  · refine ⟨sid, fc, pwp, awc, infil, praw, hsid, hfc, hpwp, hawc, hinfil,
      hpraw, hs.1, hs.2, ?_⟩
    simp only [SOIL_RECORD_FORMAT, structPack] at hsp
    rw [packField_U8_some sid hs.1 hs.2,
      packField_Str_exact 15 _ (encode_string_length _ 15 (by omega)),
      packField_U8_some fc hfcb.1 hfcb.2,
      packField_U8_some pwp hpwpb.1 hpwpb.2,
      packField_U16_some awc hawcb.1 hawcb.2,
      packField_U8_some infil hinfb.1 hinfb.2,
      packField_U8_some praw hprawb.1 hprawb.2,
      packField_Str_exact 2 _ (encode_string_length _ 2 (by omega))] at hsp
    simp only [Option.pure_def, Option.bind_eq_bind, Option.some_bind, Option.some.injEq] at hsp
    simp [hsp.symm]
  · exfalso
    simp only [SOIL_RECORD_FORMAT, structPack] at hsp
    rw [packField_U8_none sid hs] at hsp
    simp at hsp

theorem encodeIrrigationRecord_inv (row : Row) (rec : List ℕ)
    (h : encodeIrrigationRecord row = some rec) :
    ∃ mid eff wet dep rat du,
      method_id_val row = some mid ∧ irrig_efficiency row = some eff ∧
      irrig_wetting row = some wet ∧ irrig_depth row = some dep ∧
      irrig_rate row = some rat ∧ irrig_du row = some du ∧
      0 ≤ mid ∧ mid < 256 ∧
      rec = mid.toNat ::
        (encode_string (pyTake (Row.get row "method_name" "") 14) 15
          ++ ([eff.toNat, wet.toNat, dep.toNat, rat.toNat, du.toNat]
            ++ encode_string "" 3)) := by
  simp only [encodeIrrigationRecord, Option.bind_eq_bind,
    Option.bind_eq_some] at h
  obtain ⟨mid, hmid, eff, heff, wet, hwet, dep, hdep, rat, hrat, du, hdu,
    hsp⟩ := h
  have heffb : 0 ≤ eff ∧ eff < 256 := clamp8_of_map heff
  have hwetb : 0 ≤ wet ∧ wet < 256 := clamp8_of_map hwet
  have hdepb : 0 ≤ dep ∧ dep < 256 := clamp8_of_map hdep
  have hratb : 0 ≤ rat ∧ rat < 256 := clamp8_of_map hrat
  have hdub : 0 ≤ du ∧ du < 256 := clamp8_of_map hdu
  by_cases hm : 0 ≤ mid ∧ mid < 256
  · refine ⟨mid, eff, wet, dep, rat, du, hmid, heff, hwet, hdep, hrat, hdu,
      hm.1, hm.2, ?_⟩
    simp only [IRRIGATION_RECORD_FORMAT, structPack] at hsp
    rw [packField_U8_some mid hm.1 hm.2,
      packField_Str_exact 15 _ (encode_string_length _ 15 (by omega)),
      packField_U8_some eff heffb.1 heffb.2,
      packField_U8_some wet hwetb.1 hwetb.2,
      packField_U8_some dep hdepb.1 hdepb.2,
      packField_U8_some rat hratb.1 hratb.2,
      packField_U8_some du hdub.1 hdub.2,
      packField_Str_exact 3 _ (encode_string_length _ 3 (by omega))] at hsp
    simp only [Option.pure_def, Option.bind_eq_bind, Option.some_bind, Option.some.injEq] at hsp
    simp [hsp.symm]
  · exfalso
    simp only [IRRIGATION_RECORD_FORMAT, structPack] at hsp
    rw [packField_U8_none mid hm] at hsp
    simp at hsp

theorem encodePlantRecord_inv (plant_id : ℕ) (row : Row) (rec : List ℕ)
    (h : encodePlantRecord plant_id row = some rec) :
    ∃ kci kcm kce rd dep si sd sm se,
      plant_kc_ini row = some kci ∧ plant_kc_mid row = some kcm ∧
      plant_kc_end row = some kce ∧ plant_root_depth row = some rd ∧
      plant_depletion row = some dep ∧ plant_stage_ini row = some si ∧
      plant_stage_dev row = some sd ∧ plant_stage_mid row = some sm ∧
      plant_stage_end row = some se ∧ plant_id < 65536 ∧
      rec = plant_id % 256 :: plant_id / 256 ::
        (categoryCode (Row.get row "category" "")).toNat :: 0 ::
        (encode_string (plantName row) 24
          ++ ([kci.toNat, kcm.toNat, kce.toNat, rd.toNat, dep.toNat,
            si.toNat, sd.toNat, sm.toNat, se.toNat, plantFlags row,
            (toleranceCode (Row.get row "drought_tolerance" "")).toNat,
            (irrigationMethodCode
              (Row.get row "typ_irrig_method" "DRIP")).toNat]
            ++ encode_string "" 8)) := by
  simp only [encodePlantRecord, Option.bind_eq_bind, Option.bind_eq_some] at h
  obtain ⟨kci, hkci, kcm, hkcm, kce, hkce, rd, hrd, dep, hdep, si, hsi, sd,
    hsd, sm, hsm, se, hse, hsp⟩ := h
  have b1 : 0 ≤ kci ∧ kci < 256 := clamp8_of_map hkci
  have b2 : 0 ≤ kcm ∧ kcm < 256 := clamp8_of_map hkcm
  have b3 : 0 ≤ kce ∧ kce < 256 := clamp8_of_map hkce
  have b4 : 0 ≤ rd ∧ rd < 256 := clamp8_of_map hrd
  have b5 : 0 ≤ dep ∧ dep < 256 := clamp8_of_map hdep
  have b6 : 0 ≤ si ∧ si < 256 := clamp8_of_map hsi
  have b7 : 0 ≤ sd ∧ sd < 256 := clamp8_of_map hsd
  have b8 : 0 ≤ sm ∧ sm < 256 := clamp8_of_map hsm
  have b9 : 0 ≤ se ∧ se < 256 := clamp8_of_map hse
  by_cases hp : plant_id < 65536
  · refine ⟨kci, kcm, kce, rd, dep, si, sd, sm, se, hkci, hkcm, hkce, hrd,
      hdep, hsi, hsd, hsm, hse, hp, ?_⟩
    simp only [PLANT_RECORD_FORMAT, structPack] at hsp
    rw [packField_U16_some (plant_id : ℤ) (by positivity) (by exact_mod_cast hp),
      packField_U8_some _ (categoryCode_bound _).1 (categoryCode_bound _).2,
      packField_U8_some 0 (by omega) (by omega),
      packField_Str_exact 24 _ (encode_string_length _ 24 (by omega)),
      packField_U8_some kci b1.1 b1.2,
      packField_U8_some kcm b2.1 b2.2,
      packField_U8_some kce b3.1 b3.2,
      packField_U8_some rd b4.1 b4.2,
      packField_U8_some dep b5.1 b5.2,
      packField_U8_some si b6.1 b6.2,
      packField_U8_some sd b7.1 b7.2,
      packField_U8_some sm b8.1 b8.2,
      packField_U8_some se b9.1 b9.2,
      packField_U8_some (plantFlags row : ℤ) (by positivity)
        (by exact_mod_cast plantFlags_lt row),
      packField_U8_some _ (toleranceCode_bound _).1 (toleranceCode_bound _).2,
      packField_U8_some _ (irrigationMethodCode_bound _).1
        (irrigationMethodCode_bound _).2,
      packField_Str_exact 8 _ (encode_string_length _ 8 (by omega))] at hsp
    simp only [Option.pure_def, Option.bind_eq_bind, Option.some_bind, Option.some.injEq] at hsp
    simp [hsp.symm]
  · exfalso
    simp only [PLANT_RECORD_FORMAT, structPack] at hsp
    rw [packField_U16_none (plant_id : ℤ) (by omega)] at hsp
    simp at hsp

theorem encodePlant_name_bytes (plant_id : ℕ) (row : Row) (rec : List ℕ)
    (h : encodePlantRecord plant_id row = some rec) :
    (rec.drop 4).take 24 = encode_string (plantName row) 24 := by
  obtain ⟨kci, kcm, kce, rd, dep, si, sd, sm, se, -, -, -, -, -, -, -, -, -,
    -, hrec⟩ := encodePlantRecord_inv plant_id row rec h
  subst hrec
  have hn : (encode_string (plantName row) 24).length = 24 :=
    encode_string_length _ _ (by omega)
  simp only [List.drop_succ_cons, List.drop_zero]
  rw [List.take_left' hn]

theorem encodePlant_id_bytes (plant_id : ℕ) (row : Row) (rec : List ℕ)
    (h : encodePlantRecord plant_id row = some rec) :
    rec.take 2 = [plant_id % 256, plant_id / 256] := by
  obtain ⟨kci, kcm, kce, rd, dep, si, sd, sm, se, -, -, -, -, -, -, -, -, -,
    -, hrec⟩ := encodePlantRecord_inv plant_id row rec h
  subst hrec
  rfl
/-- The concrete soil row of the spec's Clay scenario. -/
def clayRow : Row :=
  [("soil_id", "0"), ("soil_type", "Clay"), ("fc_pctvol", "40"),
    ("pwp_pctvol", "20"), ("awc_mm_per_m", "180"), ("infil_mm_h", "5"),
    ("p_raw", "0.4")]

/-- The 24 payload bytes the Clay scenario must produce. -/
def clayRecordBytes : List ℕ :=
  [0, 67, 108, 97, 121, 0, 0, 0, 0, 0, 0, 0, 0, 0, 0, 0,
    40, 20, 180, 0, 5, 40, 0, 0]

/-- C4: every record a schema encoder produces has exactly the schema's
declared record size (Plant 48, Soil 24, Irrigation 24, each computed from
its `struct` format string), so the length assertion after each
`struct.pack` call can never fire. -/
theorem claim_C4_record_sizes :
    (∀ pid row rec, encodePlantRecord pid row = some rec →
      rec.length = PLANT_RECORD_SIZE) ∧
    (∀ row rec, encodeSoilRecord row = some rec →
      rec.length = SOIL_RECORD_SIZE) ∧
    (∀ row rec, encodeIrrigationRecord row = some rec →
      rec.length = IRRIGATION_RECORD_SIZE) ∧
    PLANT_RECORD_SIZE = 48 ∧ SOIL_RECORD_SIZE = 24 ∧
    IRRIGATION_RECORD_SIZE = 24 := by
  refine ⟨?_, ?_, ?_, by decide, by decide, by decide⟩
  · intro pid row rec h
    simp only [encodePlantRecord, Option.bind_eq_bind, Option.bind_eq_some] at h
    obtain ⟨kci, -, kcm, -, kce, -, rd, -, dep, -, si, -, sd, -, sm, -, se,
      -, hsp⟩ := h
    exact structPack_length _ _ _ hsp
  · intro row rec h
    simp only [encodeSoilRecord, Option.bind_eq_bind, Option.bind_eq_some] at h
    obtain ⟨sid, -, fc, -, pwp, -, awc, -, infil, -, praw, -, hsp⟩ := h
    exact structPack_length _ _ _ hsp
  · intro row rec h
    simp only [encodeIrrigationRecord, Option.bind_eq_bind,
      Option.bind_eq_some] at h
    obtain ⟨mid, -, eff, -, wet, -, dep, -, rat, -, du, -, hsp⟩ := h
    exact structPack_length _ _ _ hsp

/-- Witness for C4 at the concrete Clay row. -/
theorem claim_C4_record_sizes_witness :
    clayRecordBytes.length = SOIL_RECORD_SIZE :=
  claim_C4_record_sizes.2.1 clayRow clayRecordBytes (by decide)

/-- C6: for every string and every `maxLen ≥ 1`, `encode_string` returns
exactly `maxLen` bytes — the UTF-8 encoding truncated to at most
`maxLen - 1` bytes followed by at least one padding zero byte — and (being
a total function) never raises. -/
theorem claim_C6_encode_string (s : String) (maxLen : ℕ) (h : 1 ≤ maxLen) :
    (encode_string s maxLen).length = maxLen ∧
    encode_string s maxLen =
      (strUTF8 s).take (maxLen - 1)
        ++ List.replicate (maxLen - ((strUTF8 s).take (maxLen - 1)).length) 0 ∧
    ((strUTF8 s).take (maxLen - 1)).length ≤ maxLen - 1 ∧
    1 ≤ maxLen - ((strUTF8 s).take (maxLen - 1)).length ∧
    (encode_string s maxLen).getLast? = some 0 := by
  have htk : ((strUTF8 s).take (maxLen - 1)).length ≤ maxLen - 1 := by
    simp [List.length_take]
  refine ⟨encode_string_length s maxLen h, rfl, htk, by omega, ?_⟩
  rw [encode_string]
  rw [List.getLast?_append, List.getLast?_replicate]
  rw [if_neg (by omega)]
  rfl

/-- Witness for C6 at a name longer than the buffer. -/
theorem claim_C6_encode_string_witness :
    (encode_string "VeryLongSoilTypeName" 15).length = 15 ∧
    encode_string "VeryLongSoilTypeName" 15 =
      (strUTF8 "VeryLongSoilTypeName").take 14
        ++ List.replicate
          (15 - ((strUTF8 "VeryLongSoilTypeName").take 14).length) 0 ∧
    ((strUTF8 "VeryLongSoilTypeName").take 14).length ≤ 14 ∧
    1 ≤ 15 - ((strUTF8 "VeryLongSoilTypeName").take 14).length ∧
    (encode_string "VeryLongSoilTypeName" 15).getLast? = some 0 :=
  claim_C6_encode_string "VeryLongSoilTypeName" 15 (by decide)

theorem packField_U32_none (v : ℤ) (h : ¬(0 ≤ v ∧ v < 4294967296)) :
    packField .U32 (.int v) = none := by
  simp only [packField]
  rw [if_neg h]

theorem pack_header_eq (magic count crc rs : ℕ)
    (h1 : magic < 4294967296) (h2 : count < 65536)
    (h3 : crc < 4294967296) (h4 : rs < 65536) :
    pack_header magic count crc rs =
      some [magic % 256, magic / 256 % 256, magic / 65536 % 256,
        magic / 16777216, 1, 0, count % 256, count / 256,
        crc % 256, crc / 256 % 256, crc / 65536 % 256, crc / 16777216,
        rs % 256, rs / 256, 0, 0] := by
  simp only [pack_header, HEADER_FORMAT, structPack]
  rw [packField_U32_some (magic : ℤ) (Int.natCast_nonneg _) (by omega),
    packField_U16_some (DB_VERSION_CURRENT : ℤ) (Int.natCast_nonneg _)
      (by decide),
    packField_U16_some (count : ℤ) (Int.natCast_nonneg _) (by omega),
    packField_U32_some (crc : ℤ) (Int.natCast_nonneg _) (by omega),
    packField_U16_some (rs : ℤ) (Int.natCast_nonneg _) (by omega),
    packField_U16_some (0 : ℤ) (by omega) (by omega)]
  simp [DB_VERSION_CURRENT]

theorem pack_header_none_magic (magic count crc rs : ℕ)
    (h : ¬magic < 4294967296) :
    pack_header magic count crc rs = none := by
  simp only [pack_header, HEADER_FORMAT, structPack]
  rw [packField_U32_none (magic : ℤ) (by omega)]
  simp

theorem pack_header_none_count (magic count crc rs : ℕ)
    (h1 : magic < 4294967296) (h : ¬count < 65536) :
    pack_header magic count crc rs = none := by
  simp only [pack_header, HEADER_FORMAT, structPack]
  rw [packField_U32_some (magic : ℤ) (Int.natCast_nonneg _) (by omega),
    packField_U16_some (DB_VERSION_CURRENT : ℤ) (Int.natCast_nonneg _)
      (by decide),
    packField_U16_none (count : ℤ) (by omega)]
  simp

theorem pack_header_none_crc (magic count crc rs : ℕ)
    (h1 : magic < 4294967296) (h2 : count < 65536)
    (h : ¬crc < 4294967296) :
    pack_header magic count crc rs = none := by
  simp only [pack_header, HEADER_FORMAT, structPack]
  rw [packField_U32_some (magic : ℤ) (Int.natCast_nonneg _) (by omega),
    packField_U16_some (DB_VERSION_CURRENT : ℤ) (Int.natCast_nonneg _)
      (by decide),
    packField_U16_some (count : ℤ) (Int.natCast_nonneg _) (by omega),
    packField_U32_none (crc : ℤ) (by omega)]
  simp

theorem pack_header_none_rs (magic count crc rs : ℕ)
    (h1 : magic < 4294967296) (h2 : count < 65536)
    (h3 : crc < 4294967296) (h : ¬rs < 65536) :
    pack_header magic count crc rs = none := by
  simp only [pack_header, HEADER_FORMAT, structPack]
  rw [packField_U32_some (magic : ℤ) (Int.natCast_nonneg _) (by omega),
    packField_U16_some (DB_VERSION_CURRENT : ℤ) (Int.natCast_nonneg _)
      (by decide),
    packField_U16_some (count : ℤ) (Int.natCast_nonneg _) (by omega),
    packField_U32_some (crc : ℤ) (Int.natCast_nonneg _) (by omega),
    packField_U16_none (rs : ℤ) (by omega)]
  simp

theorem pack_header_some (magic count crc rs : ℕ) (hd : List ℕ)
    (h : pack_header magic count crc rs = some hd) :
    magic < 4294967296 ∧ count < 65536 ∧ crc < 4294967296 ∧ rs < 65536 ∧
    hd = [magic % 256, magic / 256 % 256, magic / 65536 % 256,
      magic / 16777216, 1, 0, count % 256, count / 256,
      crc % 256, crc / 256 % 256, crc / 65536 % 256, crc / 16777216,
      rs % 256, rs / 256, 0, 0] := by
  by_cases h1 : magic < 4294967296
  · by_cases h2 : count < 65536
    · by_cases h3 : crc < 4294967296
      · by_cases h4 : rs < 65536
        · rw [pack_header_eq magic count crc rs h1 h2 h3 h4] at h
          injection h with h
          exact ⟨h1, h2, h3, h4, h.symm⟩
        · rw [pack_header_none_rs magic count crc rs h1 h2 h3 h4] at h
          cases h
      · rw [pack_header_none_crc magic count crc rs h1 h2 h3] at h
        cases h
    · rw [pack_header_none_count magic count crc rs h1 h2] at h
      cases h
  · rw [pack_header_none_magic magic count crc rs h1] at h
    cases h

/-- C2: every file `write_binary_db` produces starts with the 16-byte
little-endian header `magic:u32, version:u16 = 1, count:u16, crc32:u32,
record_size:u16, reserved:u16 = 0` in that order, the stored `crc32` field
is the CRC32 of the payload only, the bytes after the header are exactly the
payload, and so recomputing CRC32 over everything after the 16-byte header
reproduces the stored field. -/
theorem claim_C2_header_layout (magic count rs : ℕ) (data file : List ℕ)
    (h : write_binary_db magic data count rs = some file) :
    HEADER_SIZE = 16 ∧
    readU32LE file = magic ∧
    readU16LE (file.drop 4) = DB_VERSION_CURRENT ∧
    readU16LE (file.drop 6) = count ∧
    readU16LE (file.drop 12) = rs ∧
    readU16LE (file.drop 14) = 0 ∧
    file.drop 16 = data ∧
    readU32LE (file.drop 8) = calc_crc32 data ∧
    readU32LE (file.drop 8) = calc_crc32 (file.drop 16) := by
  simp only [write_binary_db] at h
  cases hp : pack_header magic count (calc_crc32 data) rs with
  | none => rw [hp] at h; simp at h
  | some hd =>
    rw [hp] at h
    simp only [Option.map_some', Option.some.injEq] at h
    obtain ⟨h1, h2, h3, h4, rfl⟩ := pack_header_some _ _ _ _ hd hp
    subst h
    refine ⟨by decide, ?_, ?_, ?_, ?_, ?_, ?_, ?_, ?_⟩
    · simp [readU32LE]
      omega
    · simp [readU16LE, DB_VERSION_CURRENT]
    · simp [readU16LE]
      omega
    · simp [readU16LE]
      omega
    · simp [readU16LE]
    · simp
    · simp [readU32LE]
      omega
    · simp [readU32LE]
      omega

/-- Witness for C2: an empty soil database file. -/
theorem claim_C2_header_layout_witness :
    HEADER_SIZE = 16 ∧
    readU32LE ((write_binary_db DB_MAGIC_SOIL [] 0 24).getD [])
      = DB_MAGIC_SOIL ∧
    readU16LE (((write_binary_db DB_MAGIC_SOIL [] 0 24).getD []).drop 4)
      = DB_VERSION_CURRENT ∧
    readU16LE (((write_binary_db DB_MAGIC_SOIL [] 0 24).getD []).drop 6)
      = 0 ∧
    readU16LE (((write_binary_db DB_MAGIC_SOIL [] 0 24).getD []).drop 12)
      = 24 ∧
    readU16LE (((write_binary_db DB_MAGIC_SOIL [] 0 24).getD []).drop 14)
      = 0 ∧
    ((write_binary_db DB_MAGIC_SOIL [] 0 24).getD []).drop 16 = [] ∧
    readU32LE (((write_binary_db DB_MAGIC_SOIL [] 0 24).getD []).drop 8)
      = calc_crc32 [] ∧
    readU32LE (((write_binary_db DB_MAGIC_SOIL [] 0 24).getD []).drop 8)
      = calc_crc32 (((write_binary_db DB_MAGIC_SOIL [] 0 24).getD []).drop 16) :=
  claim_C2_header_layout DB_MAGIC_SOIL 0 24 []
    ((write_binary_db DB_MAGIC_SOIL [] 0 24).getD []) (by decide)

/-- The full file the Clay scenario produces. -/
def clayFile : List ℕ :=
  (write_binary_db DB_MAGIC_SOIL clayRecordBytes 1 SOIL_RECORD_SIZE).getD []

/-- C3: the spec's concrete Clay soil row encodes to exactly the stated
24 payload bytes (id 0, "Clay" zero-padded to 15, fc 40, pwp 20, awc 180
little-endian, infil 5, p_raw 40, two zero pad bytes), and the single-record
file has `count = 1`, `record_size = 24` and a stored CRC32 equal to the
CRC32 of exactly those 24 bytes. -/
theorem claim_C3_clay_scenario :
    convert_soils [clayRow] = some (clayRecordBytes, 1) ∧
    clayRecordBytes
      = [0] ++ encode_string "Clay" 15 ++ [40, 20] ++ [180, 0] ++ [5, 40]
        ++ [0, 0] ∧
    clayRecordBytes.length = 24 ∧
    write_binary_db DB_MAGIC_SOIL clayRecordBytes 1 SOIL_RECORD_SIZE
      = some clayFile ∧
    readU16LE (clayFile.drop 6) = 1 ∧
    readU16LE (clayFile.drop 12) = 24 ∧
    clayFile.drop 16 = clayRecordBytes ∧
    readU32LE (clayFile.drop 8) = calc_crc32 clayRecordBytes := by decide


/-- Counterexample to C1: neither abort channel saturates — the identifier
field `soil_id` is packed into its 8-bit slot without clamping, so an
out-of-range identifier makes `struct.pack` raise `struct.error`; and a
cell like `efficiency_pct = "inf"` reaches `int(float("inf"))` inside
`safe_int`, whose `OverflowError` the `except ValueError` handler does not
catch.  Both rows abort the conversion (modelled by `none`) instead of
storing a clamped byte. -/
theorem claim_C1_counterexample :
    convert_soils [[("soil_id", "500")]] = none ∧
    convert_irrigation [[("method_id", "0"), ("efficiency_pct", "inf")]]
      = none := by decide

/-- C1 (amended): whenever a record is produced, each non-identifier numeric
field was clamped to its slot's range before packing — the efficiency byte
stores `min(255, max(0, v))` for the parsed efficiency `v`, the soil `fc`
byte likewise, and the 16-bit `awc` field stores the little-endian bytes of
`min(65535, max(0, v))` — while the identifier fields are packed unclamped:
a produced soil or irrigation record forces the raw `soil_id` /
`method_id` value to lie in `0..255` and stores it verbatim in byte 0, and
a produced plant record forces the unclamped row counter `plant_id` to fit
16 bits. -/
theorem claim_C1_clamping_amended :
    (∀ row rec v, encodeIrrigationRecord row = some rec →
      safe_int (Row.get row "efficiency_pct" "80") 0 = some v →
      (rec.drop 16).getD 0 0 = (clampI 0 255 v).toNat) ∧
    (∀ row rec v, encodeSoilRecord row = some rec →
      safe_int (Row.get row "fc_pctvol" "30") 0 = some v →
      (rec.drop 16).getD 0 0 = (clampI 0 255 v).toNat) ∧
    (∀ row rec v, encodeSoilRecord row = some rec →
      safe_int (Row.get row "awc_mm_per_m" "150") 0 = some v →
      (rec.drop 16).getD 2 0 = (clampI 0 65535 v).toNat % 256 ∧
      (rec.drop 16).getD 3 0 = (clampI 0 65535 v).toNat / 256) ∧
    (∀ row rec v, encodeSoilRecord row = some rec →
      soil_id_val row = some v →
      0 ≤ v ∧ v < 256 ∧ rec.getD 0 0 = v.toNat) ∧
    (∀ row rec v, encodeIrrigationRecord row = some rec →
      method_id_val row = some v →
      0 ≤ v ∧ v < 256 ∧ rec.getD 0 0 = v.toNat) ∧
    (∀ pid row rec, encodePlantRecord pid row = some rec → pid < 65536) := by
  refine ⟨?_, ?_, ?_, ?_, ?_, ?_⟩
  · intro row rec v h hv
    obtain ⟨mid, eff, wet, dep, rat, du, hmid, heff, hwet, hdep, hrat, hdu,
      h0, h1, hrec⟩ := encodeIrrigationRecord_inv row rec h
    have heff' : (safe_int (Row.get row "efficiency_pct" "80") 0).map
        (clampI 0 255) = some eff := heff
    rw [hv, Option.map_some', Option.some.injEq] at heff'
    subst heff'
    subst hrec
    have hn : (encode_string (pyTake (Row.get row "method_name" "") 14)
        15).length = 15 := encode_string_length _ _ (by omega)
    simp only [List.drop_succ_cons, List.drop_zero]
    rw [List.drop_left' hn]
    rfl
  · intro row rec v h hv
    obtain ⟨sid, fc, pwp, awc, infil, praw, hsid, hfc, hpwp, hawc, hinfil,
      hpraw, h0, h1, hrec⟩ := encodeSoilRecord_inv row rec h
    have hfc' : (safe_int (Row.get row "fc_pctvol" "30") 0).map
        (clampI 0 255) = some fc := hfc
    rw [hv, Option.map_some', Option.some.injEq] at hfc'
    subst hfc'
    subst hrec
    have hn : (encode_string (pyTake (Row.get row "soil_type" "") 14)
        15).length = 15 := encode_string_length _ _ (by omega)
    simp only [List.drop_succ_cons, List.drop_zero]
    rw [List.drop_left' hn]
    rfl
  · intro row rec v h hv
    obtain ⟨sid, fc, pwp, awc, infil, praw, hsid, hfc, hpwp, hawc, hinfil,
      hpraw, h0, h1, hrec⟩ := encodeSoilRecord_inv row rec h
    have hawc' : (safe_int (Row.get row "awc_mm_per_m" "150") 0).map
        (clampI 0 65535) = some awc := hawc
    rw [hv, Option.map_some', Option.some.injEq] at hawc'
    subst hawc'
    subst hrec
    have hn : (encode_string (pyTake (Row.get row "soil_type" "") 14)
        15).length = 15 := encode_string_length _ _ (by omega)
    constructor
    · simp only [List.drop_succ_cons, List.drop_zero]
      rw [List.drop_left' hn]
      rfl
    · simp only [List.drop_succ_cons, List.drop_zero]
      rw [List.drop_left' hn]
      rfl
  · intro row rec v h hv
    obtain ⟨sid, fc, pwp, awc, infil, praw, hsid, hfc, hpwp, hawc, hinfil,
      hpraw, h0, h1, hrec⟩ := encodeSoilRecord_inv row rec h
    rw [hv, Option.some.injEq] at hsid
    subst hsid
    subst hrec
    exact ⟨h0, h1, rfl⟩
  · intro row rec v h hv
    obtain ⟨mid, eff, wet, dep, rat, du, hmid, heff, hwet, hdep, hrat, hdu,
      h0, h1, hrec⟩ := encodeIrrigationRecord_inv row rec h
    rw [hv, Option.some.injEq] at hmid
    subst hmid
    subst hrec
    exact ⟨h0, h1, rfl⟩
  · intro pid row rec h
    obtain ⟨kci, kcm, kce, rd, dep, si, sd, sm, se, -, -, -, -, -, -, -, -,
      -, hlt, -⟩ := encodePlantRecord_inv pid row rec h
    exact hlt

/-- An irrigation row with an out-of-range efficiency percentage. -/
def eff500Row : Row :=
  [("method_id", "3"), ("efficiency_pct", "500")]

/-- Witness for the amended C1: on concrete rows the efficiency byte of
`efficiency_pct = "500"` saturates to `255`, the Clay row's `fc` and `awc`
bytes hold `40` and `180, 0`, and the raw identifiers land in byte 0. -/
theorem claim_C1_clamping_amended_witness :
    (((encodeIrrigationRecord eff500Row).getD []).drop 16).getD 0 0 = 255 ∧
    (((encodeSoilRecord clayRow).getD []).drop 16).getD 0 0 = 40 ∧
    (((encodeSoilRecord clayRow).getD []).drop 16).getD 2 0 = 180 ∧
    (((encodeSoilRecord clayRow).getD []).drop 16).getD 3 0 = 0 ∧
    ((encodeSoilRecord clayRow).getD []).getD 0 0 = 0 ∧
    ((encodeIrrigationRecord eff500Row).getD []).getD 0 0 = 3 ∧
    (0 : ℕ) < 65536 :=
  ⟨(claim_C1_clamping_amended.1 eff500Row
      ((encodeIrrigationRecord eff500Row).getD []) 500 (by decide)
      (by decide)).trans (by decide),
    (claim_C1_clamping_amended.2.1 clayRow
      ((encodeSoilRecord clayRow).getD []) 40 (by decide)
      (by decide)).trans (by decide),
    ((claim_C1_clamping_amended.2.2.1 clayRow
      ((encodeSoilRecord clayRow).getD []) 180 (by decide)
      (by decide)).1).trans (by decide),
    ((claim_C1_clamping_amended.2.2.1 clayRow
      ((encodeSoilRecord clayRow).getD []) 180 (by decide)
      (by decide)).2).trans (by decide),
    ((claim_C1_clamping_amended.2.2.2.1 clayRow
      ((encodeSoilRecord clayRow).getD []) 0 (by decide)
      (by decide)).2.2).trans (by decide),
    ((claim_C1_clamping_amended.2.2.2.2.1 eff500Row
      ((encodeIrrigationRecord eff500Row).getD []) 3 (by decide)
      (by decide)).2.2).trans (by decide),
    claim_C1_clamping_amended.2.2.2.2.2 0 []
      ((encodePlantRecord 0 []).getD []) (by decide)⟩

theorem toNat_ofNat_valid (n : ℕ) (h : n < 55296) :
    (Char.ofNat n).toNat = n := by
  rw [Char.ofNat, dif_pos (Or.inl (by omega))]
  simp [Char.ofNatAux, Char.toNat, UInt32.toNat]

theorem mem_of_mem_stripBy {p : Char → Bool} {c : Char} {l : List Char}
    (h : c ∈ stripBy p l) : c ∈ l := by
  unfold stripBy at h
  rw [List.mem_reverse] at h
  have h1 := (List.dropWhile_sublist _).subset h
  rw [List.mem_reverse] at h1
  exact (List.dropWhile_sublist _).subset h1

theorem stripBy_empty_all {p : Char → Bool} {l : List Char}
    (h : stripBy p l = []) : ∀ c ∈ l, p c = true := by
  unfold stripBy at h
  rw [List.reverse_eq_nil_iff, List.dropWhile_eq_nil_iff] at h
  intro c hc
  have hsplit : l.takeWhile p ++ l.dropWhile p = l :=
    List.takeWhile_append_dropWhile p l
  rw [← hsplit] at hc
  rcases List.mem_append.mp hc with h3 | h3
  · exact List.mem_takeWhile_imp h3
  · exact h c (List.mem_reverse.mpr h3)

theorem ws_char_facts : ∀ n ∈ PY_WS, ndLookup n = none ∧ n ≠ 45 ∧ n ≠ 43 ∧
    n ≠ 46 ∧ (if 65 ≤ n ∧ n ≤ 90 then n + 32 else n) ≠ 105 ∧
    (if 65 ≤ n ∧ n ≤ 90 then n + 32 else n) ≠ 110 := by decide

theorem isPyWs_mem {c : Char} (h : isPyWs c = true) : c.toNat ∈ PY_WS := by
  unfold isPyWs at h
  simpa [List.contains, List.elem_iff] using h

theorem lowerChar_toNat (c : Char) :
    (lowerChar c).toNat
      = if 65 ≤ c.toNat ∧ c.toNat ≤ 90 then c.toNat + 32 else c.toNat := by
  unfold lowerChar
  by_cases h : 65 ≤ c.toNat ∧ c.toNat ≤ 90
  · rw [if_pos h, if_pos h]
    exact toNat_ofNat_valid _ (by omega)
  · rw [if_neg h, if_neg h]

theorem digitsRun_stop {c : Char} (rest : List Char) (acc : ℕ)
    (hc : pyDigit? c = none) :
    digitsRun acc 0 (c :: rest) = (acc, 0, c :: rest) := by
  cases rest with
  | nil => simp only [digitsRun, hc]
  | cons c2 rest2 =>
    cases hd2 : pyDigit? c2 with
    | none => simp only [digitsRun, hc, hd2]
    | some d2 =>
      simp only [digitsRun, hc, hd2]
      rw [if_neg (by simp)]

theorem parseMantissa_stop {c : Char} (rest : List Char)
    (hc : pyDigit? c = none) (hdot : c ≠ '.') :
    parseMantissa (c :: rest) = none := by
  have hstop : digitsRun 0 0 (c :: rest) = (0, 0, c :: rest) :=
    digitsRun_stop rest 0 hc
  unfold parseMantissa
  rw [hstop]
  show parseMantissaRest 0 0 (c :: rest) = none
  unfold parseMantissaRest
  split
  · next r2 heq => exact absurd (List.cons.inj heq).1 hdot
  · rfl

theorem parseUnsignedFloat_ws (t : List Char)
    (h : ∀ c ∈ t, isPyWs c = true) : parseUnsignedFloat t = none := by
  cases t with
  | nil => decide
  | cons c rest =>
    obtain ⟨hnd, h45, h43, h46, h105, h110⟩ :=
      ws_char_facts c.toNat (isPyWs_mem (h c (List.mem_cons_self c rest)))
    have hlc := lowerChar_toNat c
    have hni : ¬((c :: rest).map lowerChar = ['i', 'n', 'f'] ∨
        (c :: rest).map lowerChar = ['i', 'n', 'f', 'i', 'n', 'i', 't', 'y']) := by
      rintro (hk | hk) <;>
      · rw [List.map_cons] at hk
        have hc1 := congrArg Char.toNat (List.cons.inj hk).1
        rw [hlc] at hc1
        exact h105 (hc1.trans (by decide))
    have hnn : ¬((c :: rest).map lowerChar = ['n', 'a', 'n']) := by
      intro hk
      rw [List.map_cons] at hk
      have hc1 := congrArg Char.toNat (List.cons.inj hk).1
      rw [hlc] at hc1
      exact h110 (hc1.trans (by decide))
    unfold parseUnsignedFloat
    rw [if_neg hni, if_neg hnn]
    unfold parseNumeral
    rw [parseMantissa_stop rest (show pyDigit? c = none from hnd)
      (fun he => h46 (by rw [he]; rfl))]

theorem parseFloat?_blank (l : List Char) (h : pyStripL l = []) :
    parseFloat? l = none := by
  have hall : ∀ c ∈ l, isPyWs c = true := stripBy_empty_all h
  have hfs : ∀ c ∈ floatStripL l, isPyWs c = true :=
    fun c hc => hall c (mem_of_mem_stripBy hc)
  unfold parseFloat?
  rcases hstr : floatStripL l with _ | ⟨c, rest⟩
  · decide
  · have hcm : isPyWs c = true :=
      hfs c (by rw [hstr]; exact List.mem_cons_self c rest)
    obtain ⟨-, h45, h43, -, -, -⟩ := ws_char_facts c.toNat (isPyWs_mem hcm)
    split
    · next heq =>
      exact absurd ((congrArg Char.toNat (List.cons.inj heq).1).trans
        (by decide)) h45
    · next heq =>
      exact absurd ((congrArg Char.toNat (List.cons.inj heq).1).trans
        (by decide)) h43
    · exact parseUnsignedFloat_ws _ (hstr ▸ hfs)

/-- Counterexample to C9: `safe_int` does not return for every string — a
cell parsing to an infinity reaches `int(float(val))`, which raises
`OverflowError`, and the `except ValueError` handler does not catch it, so
the converter aborts (modelled by `none`). -/
theorem claim_C9_counterexample :
    safe_int "inf" 0 = none ∧ safe_int "1e400" 0 = none := by decide

/-- C9 (amended): `safe_float` and `safe_int` return the default whenever
the cell is blank (empty or whitespace-only, in which case `float()` is
never reached) or fails to parse under `float()`'s grammar (`ValueError`,
caught); when the cell parses to a finite double `q`, `safe_float` returns
`q` and `safe_int` returns its truncation toward zero; when it parses to
`±inf`, `safe_int` aborts with an uncaught `OverflowError`; when it parses
to NaN, `safe_float` returns NaN and `safe_int` returns the default
(`int(nan)` raises `ValueError`, which is caught). -/
theorem claim_C9_safe_parsing_amended (val : String) (dq : ℚ) (di : ℤ) :
    ((pyStripL val.data).isEmpty = true →
      safe_float val dq = .finite dq ∧ safe_int val di = some di) ∧
    (parseFloat? val.data = none →
      safe_float val dq = .finite dq ∧ safe_int val di = some di) ∧
    (∀ q, parseFloat? val.data = some (.finite q) →
      safe_float val dq = .finite q ∧ safe_int val di = some (truncQ q)) ∧
    (parseFloat? val.data = some .inf ∨ parseFloat? val.data = some .negInf →
      safe_int val di = none) ∧
    (parseFloat? val.data = some .nan →
      safe_float val dq = .nan ∧ safe_int val di = some di) := by
  have hne : ∀ x : PyFloat, parseFloat? val.data = some x →
      (pyStripL val.data).isEmpty = false := by
    intro x hx
    rcases hc : (pyStripL val.data).isEmpty with _ | _
    · rfl
    · rw [parseFloat?_blank val.data (List.isEmpty_iff.mp hc)] at hx
      cases hx
  refine ⟨?_, ?_, ?_, ?_, ?_⟩
  · intro h
    constructor <;> simp [safe_float, safe_int, h]
  · intro h
    by_cases he : (pyStripL val.data).isEmpty
    · constructor <;> simp [safe_float, safe_int, he]
    · constructor <;> simp [safe_float, safe_int, he, h]
  · intro q h
    have he := hne _ h
    constructor <;> simp [safe_float, safe_int, he, h]
  · rintro (h | h) <;>
    · have he := hne _ h
      simp [safe_int, he, h]
  · intro h
    have he := hne _ h
    constructor <;> simp [safe_float, safe_int, he, h]

/-- Witness for the amended C9 on an unparseable cell, a finite numeral, an
infinity (abort) and a NaN. -/
theorem claim_C9_safe_parsing_amended_witness :
    (safe_float "abc" (mkRat 7 1) = .finite (mkRat 7 1) ∧
      safe_int "abc" 9 = some 9) ∧
    (safe_float "3.5" (mkRat 7 1) = .finite (mkRat 7 2) ∧
      safe_int "3.5" 9 = some (truncQ (mkRat 7 2))) ∧
    safe_int "inf" 9 = none ∧
    (safe_float "nan" (mkRat 7 1) = .nan ∧ safe_int "nan" 9 = some 9) :=
  ⟨(claim_C9_safe_parsing_amended "abc" (mkRat 7 1) 9).2.1 (by decide),
    (claim_C9_safe_parsing_amended "3.5" (mkRat 7 1) 9).2.2.1 (mkRat 7 2)
      (by decide),
    (claim_C9_safe_parsing_amended "inf" (mkRat 7 1) 9).2.2.2.1
      (Or.inl (by decide)),
    (claim_C9_safe_parsing_amended "nan" (mkRat 7 1) 9).2.2.2.2 (by decide)⟩

/-- C10: the fall-back from the English to the Romanian common name happens
only when the `common_name_en` key is absent from the row; when the key is
present with an empty value the encoded name buffer is that of the empty
string (all zeros), not the Romanian name. -/
theorem claim_C10_name_fallback :
    (∀ pid row rec, Row.lookup row "common_name_en" = some "" →
      encodePlantRecord pid row = some rec →
      (rec.drop 4).take 24 = List.replicate 24 0) ∧
    (∀ pid row rec, Row.lookup row "common_name_en" = none →
      encodePlantRecord pid row = some rec →
      (rec.drop 4).take 24 =
        encode_string (pyTake (Row.get row "common_name_ro" "") 23) 24) := by
  constructor
  · intro pid row rec hlk h
    rw [encodePlant_name_bytes pid row rec h]
    have hname : plantName row = "" := by
      unfold plantName Row.get
      rw [hlk]
      rfl
    rw [hname]
    decide
  · intro pid row rec hlk h
    rw [encodePlant_name_bytes pid row rec h]
    unfold plantName Row.get
    rw [hlk]
    rfl

/-- A row whose English-name column exists but is empty. -/
def enEmptyRow : Row :=
  [("common_name_en", ""), ("common_name_ro", "Rosu")]

/-- Witness for C10: the empty English cell wins over the Romanian name. -/
theorem claim_C10_name_fallback_witness :
    (((encodePlantRecord 0 enEmptyRow).getD []).drop 4).take 24
      = List.replicate 24 0 :=
  claim_C10_name_fallback.1 0 enEmptyRow
    ((encodePlantRecord 0 enEmptyRow).getD []) (by decide) (by decide)

theorem convertSeq_spec (enc : ℕ → Row → Option (List ℕ))
    (rows : List Row) (pid : ℕ) (recs : List (List ℕ))
    (h : convertSeq enc pid rows = some recs) :
    recs.length = rows.length ∧
    ∀ i (h1 : i < rows.length) (h2 : i < recs.length),
      enc (pid + i) (rows.get ⟨i, h1⟩) = some (recs.get ⟨i, h2⟩) := by
  induction rows generalizing pid recs with
  | nil =>
    simp only [convertSeq] at h
    injection h with h
    subst h
    exact ⟨rfl, fun i h1 h2 => absurd h1 (by simp)⟩
  | cons r rs ih =>
    simp only [convertSeq] at h
    cases hx : enc pid r with
    | none => rw [hx] at h; simp at h
    | some x =>
      rw [hx] at h
      cases hr : convertSeq enc (pid + 1) rs with
      | none => rw [hr] at h; simp at h
      | some xs =>
        rw [hr] at h
        simp only [Option.some.injEq] at h
        subst h
        obtain ⟨hlen, hall⟩ := ih (pid + 1) xs hr
        refine ⟨by simp [hlen], ?_⟩
        intro i h1 h2
        cases i with
        | zero => simpa using hx
        | succ j =>
          have h1' : j < rs.length := by simpa using h1
          have h2' : j < xs.length := by simpa using h2
          have hj := hall j h1' h2'
          rw [show pid + (j + 1) = (pid + 1) + j from by omega]
          simpa using hj

theorem convertPlantsFrom_spec (rows : List Row) (pid : ℕ)
    (recs : List (List ℕ)) (h : convertPlantsFrom pid rows = some recs) :
    recs.length = rows.length ∧
    ∀ i (h1 : i < rows.length) (h2 : i < recs.length),
      encodePlantRecord (pid + i) (rows.get ⟨i, h1⟩)
        = some (recs.get ⟨i, h2⟩) :=
  convertSeq_spec encodePlantRecord rows pid recs h

/-- C8: for every plants CSV, the record at (0-based) position `i` of the
output is the encoding of the row at position `i` with `plant_id = i` stored
in its leading `subtype_id` field — identifiers are assigned 0, 1, 2, … in
CSV row order, so reordering rows reassigns identifiers. -/
theorem claim_C8_sequential_ids (rows : List Row) (recs : List (List ℕ))
    (h : convertPlantsFrom 0 rows = some recs) :
    recs.length = rows.length ∧
    ∀ i (h1 : i < rows.length) (h2 : i < recs.length),
      encodePlantRecord i (rows.get ⟨i, h1⟩) = some (recs.get ⟨i, h2⟩) ∧
      (recs.get ⟨i, h2⟩).take 2 = [i % 256, i / 256] := by
  obtain ⟨hlen, hall⟩ := convertPlantsFrom_spec rows 0 recs h
  refine ⟨hlen, fun i h1 h2 => ?_⟩
  have hx := hall i h1 h2
  rw [Nat.zero_add] at hx
  exact ⟨hx, encodePlant_id_bytes _ _ _ hx⟩

/-- First plant row of the row-order scenario. -/
def plantRowA : Row := [("common_name_en", "Apple")]

/-- Second plant row of the row-order scenario. -/
def plantRowB : Row := [("common_name_en", "Basil")]

/-- Witness for C8: two rows get identifiers 0 and 1 in order, and swapping
the rows changes which name is stored in the record holding identifier 0. -/
theorem claim_C8_sequential_ids_witness :
    ((convertPlantsFrom 0 [plantRowA, plantRowB]).getD []).length = 2 ∧
    ((((convertPlantsFrom 0 [plantRowA, plantRowB]).getD []).getD 0
      []).take 2 = [0, 0] ∧
    (((convertPlantsFrom 0 [plantRowA, plantRowB]).getD []).getD 1
      []).take 2 = [1, 0]) ∧
    ((((convertPlantsFrom 0 [plantRowA, plantRowB]).getD []).getD 0
      []).drop 4).take 24 = encode_string "Apple" 24 ∧
    ((((convertPlantsFrom 0 [plantRowB, plantRowA]).getD []).getD 0
      []).drop 4).take 24 = encode_string "Basil" 24 :=
  ⟨(claim_C8_sequential_ids [plantRowA, plantRowB]
      ((convertPlantsFrom 0 [plantRowA, plantRowB]).getD [])
      (by decide)).1,
    by decide, by decide, by decide⟩


theorem pySplitL_ne_nil (sep : Char) (l : List Char) :
    pySplitL sep l ≠ [] := by
  cases l with
  | nil => simp [pySplitL]
  | cons c cs =>
    simp only [pySplitL]
    cases pySplitL sep cs with
    | nil => simp
    | cons p ps =>
      by_cases h : c = sep <;> simp [h]

theorem pySplitL_no_sep (sep : Char) (l : List Char)
    (h : ∀ c ∈ l, c ≠ sep) : pySplitL sep l = [l] := by
  induction l with
  | nil => rfl
  | cons c cs ih =>
    simp only [pySplitL]
    rw [ih fun x hx => h x (List.mem_cons_of_mem _ hx)]
    simp [h c (List.mem_cons_self c cs)]

theorem pySplitL_append (sep : Char) (l₁ l₂ : List Char)
    (h : ∀ c ∈ l₁, c ≠ sep) :
    pySplitL sep (l₁ ++ sep :: l₂) = l₁ :: pySplitL sep l₂ := by
  induction l₁ with
  | nil =>
    simp only [List.nil_append, pySplitL]
    cases hps : pySplitL sep l₂ with
    | nil => exact absurd hps (pySplitL_ne_nil sep l₂)
    | cons p ps => simp
  | cons c cs ih =>
    simp only [List.cons_append, pySplitL, List.append_eq]
    rw [ih fun x hx => h x (List.mem_cons_of_mem _ hx)]
    simp [h c (List.mem_cons_self c cs)]

theorem pyContains_of_mem {s : String} {c : Char} (h : c ∈ s.data) :
    pyContains s c = true := by
  simp [pyContains, List.contains, List.elem_iff, h]

theorem pyContains_eq_false {s : String} {c : Char} (h : c ∉ s.data) :
    pyContains s c = false := by
  rcases he : pyContains s c with _ | _
  · rfl
  · exact absurd (by simpa [pyContains, List.contains, List.elem_iff] using he) h

/-- Counterexample to C7: the stored value is not the integer average of
the two range ends — each end is first truncated through
`safe_int` (`int(float(end))`) and only then floor-averaged.  For
`"2.5-3.5"` the average of the ends is `3`, but the code computes
`(int(2.5) + int(3.5)) // 2 = (2 + 3) // 2 = 2`, and `2` is what the depth
byte stores. -/
theorem claim_C7_counterexample :
    parseRangeAvg "2.5-3.5" = some 2 ∧
    safe_int "2.5" 0 = some 2 ∧ safe_int "3.5" 0 = some 3 ∧
    (((encodeIrrigationRecord
      [("method_id", "1"), ("depth_typical_mm", "2.5-3.5")]).getD
        []).drop 16).getD 2 0 = 2 ∧
    ¬(((encodeIrrigationRecord
      [("method_id", "1"), ("depth_typical_mm", "2.5-3.5")]).getD
        []).drop 16).getD 2 0 = 3 := by decide

/-- C7 (amended): a depth or rate string containing `-` is split at the
first dash; each of the first two pieces is parsed by `safe_int`
(truncating through `float`) and the two parsed integers are averaged with
floor division `// 2` — so for integer ends the result is the floor of the
ends' mean, but fractional ends are truncated before averaging.  A string
without a dash is parsed by `safe_int` alone, and the encoded depth and
rate bytes store exactly the clamped range-parse of their field. -/
theorem claim_C7_range_average_amended :
    (∀ (l₁ l₂ : List Char) (a b : ℤ), '-' ∉ l₁ → '-' ∉ l₂ →
      safe_int ⟨l₁⟩ 0 = some a → safe_int ⟨l₂⟩ 0 = some b →
      parseRangeAvg ⟨l₁ ++ '-' :: l₂⟩ = some (Int.fdiv (a + b) 2)) ∧
    (∀ (s : String) (v : ℤ), pyContains s '-' = false →
      safe_int s 0 = some v → parseRangeAvg s = some v) ∧
    (∀ row rec v, encodeIrrigationRecord row = some rec →
      parseRangeAvg (Row.get row "depth_typical_mm" "30") = some v →
      (rec.drop 16).getD 2 0 = (clampI 0 255 v).toNat) ∧
    (∀ row rec v, encodeIrrigationRecord row = some rec →
      parseRangeAvg (Row.get row "application_rate_mm_h" "10") = some v →
      (rec.drop 16).getD 3 0 = (clampI 0 255 v).toNat) := by
  refine ⟨?_, ?_, ?_, ?_⟩
  · intro l₁ l₂ a b h1 h2 ha hb
    have hsplit : pySplit ⟨l₁ ++ '-' :: l₂⟩ '-' = [⟨l₁⟩, ⟨l₂⟩] := by
      unfold pySplit
      rw [show (⟨l₁ ++ '-' :: l₂⟩ : String).data = l₁ ++ '-' :: l₂ from rfl,
        pySplitL_append '-' l₁ l₂ fun c hc he => h1 (he ▸ hc),
        pySplitL_no_sep '-' l₂ fun c hc he => h2 (he ▸ hc)]
      rfl
    unfold parseRangeAvg
    rw [if_pos (pyContains_of_mem (by simp)), hsplit]
    simp only [List.getD_cons_zero, List.getD_cons_succ]
    rw [ha, hb]
  · intro s v hc hv
    unfold parseRangeAvg
    rw [if_neg (by simp [hc])]
    exact hv
  · intro row rec v h hv
    obtain ⟨mid, eff, wet, dep, rat, du, hmid, heff, hwet, hdep, hrat, hdu,
      h0, h1, hrec⟩ := encodeIrrigationRecord_inv row rec h
    have hdep' : (parseRangeAvg (Row.get row "depth_typical_mm" "30")).map
        (clampI 0 255) = some dep := hdep
    rw [hv, Option.map_some', Option.some.injEq] at hdep'
    subst hdep'
    subst hrec
    have hn : (encode_string (pyTake (Row.get row "method_name" "") 14)
        15).length = 15 := encode_string_length _ _ (by omega)
    simp only [List.drop_succ_cons, List.drop_zero]
    rw [List.drop_left' hn]
    rfl
  · intro row rec v h hv
    obtain ⟨mid, eff, wet, dep, rat, du, hmid, heff, hwet, hdep, hrat, hdu,
      h0, h1, hrec⟩ := encodeIrrigationRecord_inv row rec h
    have hrat' : (parseRangeAvg (Row.get row "application_rate_mm_h"
        "10")).map (clampI 0 255) = some rat := hrat
    rw [hv, Option.map_some', Option.some.injEq] at hrat'
    subst hrat'
    subst hrec
    have hn : (encode_string (pyTake (Row.get row "method_name" "") 14)
        15).length = 15 := encode_string_length _ _ (by omega)
    simp only [List.drop_succ_cons, List.drop_zero]
    rw [List.drop_left' hn]
    rfl

/-- Witness for the amended C7: `"40-80"` averages to 60, `"25"` parses to
25, and the depth byte of a row with `depth_typical_mm = "40-80"`
stores 60. -/
theorem claim_C7_range_average_amended_witness :
    parseRangeAvg "40-80" = some (Int.fdiv (40 + 80) 2) ∧
    parseRangeAvg "25" = some 25 ∧
    (((encodeIrrigationRecord
      [("method_id", "1"), ("depth_typical_mm", "40-80")]).getD
        []).drop 16).getD 2 0 = 60 :=
  ⟨claim_C7_range_average_amended.1 ['4', '0'] ['8', '0'] 40 80 (by decide)
      (by decide) (by decide) (by decide),
    claim_C7_range_average_amended.2.1 "25" 25 (by decide) (by decide),
    (claim_C7_range_average_amended.2.2.1
      [("method_id", "1"), ("depth_typical_mm", "40-80")]
      ((encodeIrrigationRecord
        [("method_id", "1"), ("depth_typical_mm", "40-80")]).getD []) 60
      (by decide) (by decide)).trans (by decide)⟩
